import Mathlib

/-!
Verification development for the IOM government-jobs scraper.

The JavaScript worker (src/worker) is shallowly embedded: the regex-driven
parsers are modelled with a small ECMAScript-style backtracking matcher over
`List Char`, the D1/SQLite store operations are modelled as pure functions on
an explicit row type, and the orchestrator's crawl loop and failure
classification are modelled as functions over prescribed fetch outcomes.
Nondeterministic inputs of the source (current time, random ids, the network)
are threaded as explicit parameters.
-/

/-! ## JavaScript string helpers -/

/-- Lower-case a character the way `String.prototype.toLowerCase` does for the
ASCII range (the only range exercised here). -/
def jsLower (c : Char) : Char := c.toLower

/-- Whitespace per the ECMAScript `\s` class (space, tab, LF, CR, FF, VT,
NBSP; the Unicode space classes beyond these do not occur in the inputs). -/
def jsSpace (c : Char) : Bool :=
  c = ' ' || c = '\t' || c = '\n' || c = '\r' || c = '\x0b' || c = '\x0c' || c.toNat = 0xa0

/-- Word characters per the ECMAScript `\w` class. -/
def jsWord (c : Char) : Bool :=
  c.isAlpha || c.isDigit || c = '_'

/-- Check that `pat` occurs as a contiguous run inside `s`
(`String.prototype.includes`). -/
def listHasRun (pat s : List Char) : Bool :=
  match s with
  | [] => pat.isEmpty
  | _ :: rest => pat.isPrefixOf s || listHasRun pat rest

/-- `String.prototype.includes` on Lean strings. -/
def jsIncludes (s pat : String) : Bool := listHasRun pat.data s.data

/-- Does `s` end with `pat` (`String.prototype.endsWith`)? -/
def listEndsWith (s pat : List Char) : Bool :=
  pat.reverse.isPrefixOf s.reverse

/-- Does `s` start with `pat` (`String.prototype.startsWith`)? -/
def listStartsWith (s pat : List Char) : Bool :=
  pat.isPrefixOf s

/-- `String.prototype.toLowerCase` on a character list. -/
def toLowerList (s : List Char) : List Char := s.map jsLower

/-- Replace every (non-overlapping, left-to-right) occurrence of the literal
`pat` by `rep`, as a `g`-flag literal regex replace does; `fuel` is the input
length. -/
def listReplace (fuel : Nat) (pat rep s : List Char) : List Char :=
  match fuel with
  | 0 => s
  | f + 1 =>
    match s with
    | [] => []
    | c :: rest =>
      if !pat.isEmpty && pat.isPrefixOf s then
        rep ++ listReplace f pat rep (s.drop pat.length)
      else
        c :: listReplace f pat rep rest

/-- Literal global replacement, string-pattern convenience form. -/
def lrep (pat rep : String) (s : List Char) : List Char :=
  listReplace s.length pat.data rep.data s

/-- `String.prototype.substring(a, b)` (indices clamped, order swapped if
needed); on the ASCII/BMP inputs here a JS index is a character index. -/
def jsSubstring (s : List Char) (a b : Nat) : List Char :=
  let lo := min a b
  let hi := min (max a b) s.length
  (s.take hi).drop lo

/-! ## ECMAScript-style regular expression matcher

All regexes in the worker carry the `i` flag, so literal and class matching
is case-insensitive throughout.  The matcher returns, for a fixed start
position, the list of possible (remaining input, captures) pairs in the
backtracking priority order prescribed by ECMA-262; the head of that list is
the match the JS engine produces. -/

/-- One item of a character class. -/
inductive CItem where
  | ch (c : Char)
  | rng (a b : Char)
  | digit
  | space
  | word
deriving Repr, DecidableEq

/-- A (possibly negated) character class. -/
structure CCls where
  neg : Bool
  items : List CItem
deriving Repr, DecidableEq

/-- Does a single class item accept character `c` (case-insensitively)? -/
def cItemAccept (c : Char) : CItem → Bool
  | .ch d => jsLower c = jsLower d
  | .rng a b => decide (a ≤ jsLower c) && decide (jsLower c ≤ b)
  | .digit => c.isDigit
  | .space => jsSpace c
  | .word => jsWord c

/-- Does the class accept `c`? -/
def clsAccept (cc : CCls) (c : Char) : Bool :=
  let m := cc.items.any (cItemAccept c)
  if cc.neg then !m else m

/-- Regular-expression abstract syntax.  Bounded repetition `{m,n}` is
desugared at construction into a mandatory prefix plus `upTo`. -/
inductive RE where
  | eps
  | lit (c : Char)
  | cls (cc : CCls)
  | dotAll
  | cat (a b : RE)
  | alt (a b : RE)
  | star (lz : Bool) (a : RE)
  | upTo (n : Nat) (lz : Bool) (a : RE)
  | grp (i : Nat) (a : RE)
  | ahead (a : RE)
  | eos
deriving Repr, DecidableEq

/-- Capture state: the regexes in this worker use at most three capture
groups. -/
structure Caps where
  g1 : Option (List Char)
  g2 : Option (List Char)
  g3 : Option (List Char)
deriving Repr, DecidableEq

/-- Empty capture state. -/
def capsEmpty : Caps := ⟨none, none, none⟩

/-- Record group `i` as having captured `v`. -/
def Caps.setG (k : Caps) (i : Nat) (v : List Char) : Caps :=
  match i with
  | 1 => { k with g1 := some v }
  | 2 => { k with g2 := some v }
  | 3 => { k with g3 := some v }
  | _ => k

/-- Structural size of a pattern; `upTo n` is weighted by `n` because its
matcher unrolls up to `n` iterations. -/
def reSize : RE → Nat
  | .eps => 1
  | .lit _ => 1
  | .cls _ => 1
  | .dotAll => 1
  | .eos => 1
  | .cat a b => reSize a + reSize b + 1
  | .alt a b => reSize a + reSize b + 1
  | .star _ a => reSize a + 1
  | .upTo n _ a => n * (reSize a + 1) + reSize a + 1
  | .grp _ a => reSize a + 1
  | .ahead a => reSize a + 1

/-- Backtracking matcher.  `mtch fuel r s k` returns the candidate
continuations `(rest, captures)` in priority order; the head of the list is
the match a JS engine produces.  Recursion is structural on `fuel`, which
bounds the call depth only: the drivers below pass
`(reSize r + 2) * (length + 2)`, which over-approximates the maximal call
depth for every pattern transcribed in this file (star bodies are single
character classes, so a star adds at most `length + 1` nested calls, and
`upTo n` is weighted by `n` in `reSize`).  The progress cut in `star` and
`upTo` mirrors the ECMA-262 RepeatMatcher rule that an iteration of a
min-zero quantifier matching the empty string fails. -/
def mtch : Nat → RE → List Char → Caps → List (List Char × Caps)
  | 0, _, _, _ => []
  | _ + 1, .eps, s, k => [(s, k)]
  | _ + 1, .eos, s, k => match s with | [] => [([], k)] | _ :: _ => []
  | _ + 1, .lit c, s, k =>
    match s with
    | [] => []
    | d :: rest => if jsLower d = jsLower c then [(rest, k)] else []
  | _ + 1, .cls cc, s, k =>
    match s with
    | [] => []
    | d :: rest => if clsAccept cc d then [(rest, k)] else []
  | _ + 1, .dotAll, s, k =>
    match s with
    | [] => []
    | _ :: rest => [(rest, k)]
  | f + 1, .cat a b, s, k => (mtch f a s k).flatMap (fun p => mtch f b p.1 p.2)
  | f + 1, .alt a b, s, k => mtch f a s k ++ mtch f b s k
  | f + 1, .star lz a, s, k =>
    let more :=
      (mtch f a s k).flatMap (fun p =>
        if p.1.length < s.length then mtch f (.star lz a) p.1 p.2 else [])
    if lz then (s, k) :: more else more ++ [(s, k)]
  | f + 1, .upTo n lz a, s, k =>
    match n with
    | 0 => [(s, k)]
    | m + 1 =>
      let more :=
        (mtch f a s k).flatMap (fun p =>
          if p.1.length < s.length then mtch f (.upTo m lz a) p.1 p.2 else [])
      if lz then (s, k) :: more else more ++ [(s, k)]
  | f + 1, .grp i a, s, k =>
    (mtch f a s k).map (fun p =>
      (p.1, p.2.setG i (s.take (s.length - p.1.length))))
  | f + 1, .ahead a, s, k =>
    match mtch f a s k with
    | [] => []
    | p :: _ => [(s, p.2)]

/-- Try the regex anchored at the start of `s`; return consumed length and
captures of the priority match. -/
def tryAt (re : RE) (s : List Char) : Option (Nat × Caps) :=
  match mtch ((reSize re + 2) * (s.length + 2)) re s capsEmpty with
  | [] => none
  | p :: _ => some (s.length - p.1.length, p.2)

/-- Leftmost match: scan start positions left to right (`i` is the absolute
index of the current suffix).  Returns (start, length, captures). -/
def reFind (re : RE) (s : List Char) (i : Nat) : Option (Nat × Nat × Caps) :=
  match tryAt re s with
  | some (len, c) => some (i, len, c)
  | none =>
    match s with
    | [] => none
    | _ :: rest => reFind re rest (i + 1)

/-- First match in a string (`String.prototype.match` without `g`). -/
def jsMatchFirst (re : RE) (s : List Char) : Option (Nat × Nat × Caps) :=
  reFind re s 0

/-- All successive matches (`matchAll` / a `g`-flag `exec` loop); an empty
match advances `lastIndex` by one as the JS engine does. -/
def matchAllAux (re : RE) (s : List Char) (base fuel : Nat) :
    List (Nat × Nat × Caps) :=
  match fuel with
  | 0 => []
  | f + 1 =>
    match reFind re s base with
    | none => []
    | some (st, len, c) =>
      let adv := (st - base) + max len 1
      (st, len, c) :: matchAllAux re (s.drop adv) (base + adv) f

/-- All matches of `re` in `s`, as (start, length, captures) triples. -/
def jsMatchAll (re : RE) (s : List Char) : List (Nat × Nat × Caps) :=
  matchAllAux re s 0 (s.length + 1)

/-! ### Constructors used when transcribing the source regexes -/

/-- Sequence a list of regexes. -/
def rSeq (rs : List RE) : RE := rs.foldr RE.cat RE.eps

/-- Literal string (each character matched case-insensitively). -/
def rLit (s : String) : RE := rSeq (s.data.map RE.lit)

/-- Ordered alternation of a head and further alternatives. -/
def rAlts (a : RE) (rest : List RE) : RE :=
  match rest with
  | [] => a
  | b :: r => RE.alt a (rAlts b r)

/-- Positive character class listing plain characters, e.g. `[.,;]`. -/
def rIn (s : String) : RE := RE.cls ⟨false, s.data.map CItem.ch⟩

/-- Negated character class listing plain characters, e.g. `[^>]`. -/
def rNotIn (s : String) : RE := RE.cls ⟨true, s.data.map CItem.ch⟩

/-- Class from explicit items. -/
def rClsOf (items : List CItem) : RE := RE.cls ⟨false, items⟩

/-- Negated class from explicit items. -/
def rNClsOf (items : List CItem) : RE := RE.cls ⟨true, items⟩

/-- Greedy star. -/
def rStarG (a : RE) : RE := RE.star false a

/-- Lazy star. -/
def rStarL (a : RE) : RE := RE.star true a

/-- Greedy plus (`a+` is `a a*`). -/
def rPlusG (a : RE) : RE := RE.cat a (RE.star false a)

/-- Greedy option (`a?`). -/
def rOptG (a : RE) : RE := RE.upTo 1 false a

/-- Bounded repetition `a{lo,hi}` with lazy tail when `lz` is set. -/
def rRep (lo hi : Nat) (lz : Bool) (a : RE) : RE :=
  rSeq (List.replicate lo a) |>.cat (RE.upTo (hi - lo) lz a)

/-- The `\d` class. -/
def rDigitC : RE := rClsOf [CItem.digit]

/-- The `\s` class. -/
def rSpaceC : RE := rClsOf [CItem.space]

/-- The `[\s\S]` any-character class. -/
def rAny : RE := RE.dotAll

/-! ## Replacement driver -/

/-- Splice replacements into `s` at the (ascending, non-overlapping) match
spans `ms`, starting from absolute position `pos`.  The replacement function
receives the captures and the matched text. -/
def spliceAll (s : List Char) (rep : Caps → List Char → List Char) :
    List (Nat × Nat × Caps) → Nat → List Char
  | [], pos => s.drop pos
  | (st, len, c) :: ms, pos =>
    (s.drop pos).take (st - pos) ++ rep c (jsSubstring s st (st + len)) ++
      spliceAll s rep ms (st + len)

/-- Global regex replacement with a replacement callback
(`String.prototype.replace` with a `g`-flag regex). -/
def jsReplaceAll (re : RE) (s : List Char) (rep : Caps → List Char → List Char) :
    List Char :=
  spliceAll s rep (jsMatchAll re s) 0

/-- Global regex replacement by a constant string. -/
def jsReplaceAllStr (re : RE) (s : List Char) (t : List Char) : List Char :=
  jsReplaceAll re s (fun _ _ => t)

/-- Trim leading and trailing JS whitespace (`String.prototype.trim`). -/
def jsTrim (s : List Char) : List Char :=
  ((s.dropWhile jsSpace).reverse.dropWhile jsSpace).reverse

/-! ## utils.js embeddings -/

/-- Value of a hexadecimal digit (`parseInt(_, 16)` on `[0-9a-f]+` input,
case-insensitively). -/
def hexDigitVal (c : Char) : Nat :=
  if c.isDigit then c.toNat - 48
  else (jsLower c).toNat - 87

/-- Numeric value of a hex-digit list. -/
def hexVal (ds : List Char) : Nat :=
  ds.foldl (fun acc c => acc * 16 + hexDigitVal c) 0

/-- Numeric value of a decimal-digit list. -/
def decVal (ds : List Char) : Nat :=
  ds.foldl (fun acc c => acc * 10 + (c.toNat - 48)) 0

/-- Model of `String.fromCharCode(n)`: a single UTF-16 code unit, i.e. the
code truncated modulo 2^16 (a lone-surrogate result, impossible on
well-formed entity input, is mapped to the null character by `Char.ofNat`). -/
def fromCharCode (n : Nat) : List Char := [Char.ofNat (n % 65536)]

/-- Regex `<[^>]*>` of `cleanText` (tag stripper). -/
def tagRe : RE := rSeq [RE.lit '<', rStarG (rNotIn ">"), RE.lit '>']

/-- Regex `&#x([0-9a-f]+);` (with `i` flag) of `cleanText`. -/
def hexEntityRe : RE :=
  rSeq [rLit "&#x", RE.grp 1 (rPlusG (rClsOf [CItem.rng '0' '9', CItem.rng 'a' 'f'])), RE.lit ';']

/-- Regex `&#(\d+);` of `cleanText`. -/
def decEntityRe : RE :=
  rSeq [rLit "&#", RE.grp 1 (rPlusG rDigitC), RE.lit ';']

/-- Regex `\s+` (whitespace collapse) of `cleanText`. -/
def wsRunRe : RE := rPlusG rSpaceC

/-- The `cleanText` helper of src/worker/utils.js: strip tags, decode the
named and numeric HTML entities, collapse whitespace, trim.  The literal
(case-sensitive) entity replacements use `String.replace` on all
occurrences, exactly as the corresponding `g`-flag literal regexes do. -/
def cleanText (s : List Char) : List Char :=
  let t1 := jsReplaceAllStr tagRe s " ".data
  let t2 := lrep "&amp;" "&" (lrep "&nbsp;" " " t1)
  let t3 := lrep "&quot;" "\"" (lrep "&gt;" ">" (lrep "&lt;" "<" t2))
  let t4 := lrep "&#163;" "£" (lrep "&pound;" "£" (lrep "&#39;" "'" t3))
  let t5 := jsReplaceAll hexEntityRe t4 (fun c _ => fromCharCode (hexVal (c.g1.getD [])))
  let t6 := jsReplaceAll decEntityRe t5 (fun c _ => fromCharCode (decVal (c.g1.getD [])))
  jsTrim (jsReplaceAllStr wsRunRe t6 " ".data)

/-- Truthiness of a nullable JS string: `null`, `undefined` and `""` are
falsy. -/
def truthy : Option String → Bool
  | none => false
  | some s => !s.data.isEmpty

/-- The JS `a || b` operator on nullable strings. -/
def jsOrOpt (a b : Option String) : Option String :=
  if truthy a then a else b

/-- Non-negative decimal number in canonical form: the value is
`man / 10 ^ sc`, and the mantissa of a canonical value is not a non-zero
multiple of 10 while `sc > 0`.  This models the JS numbers arising in the
salary parser (digit/dot tokens and multiplications by 1000), on which IEEE
double arithmetic is exact. -/
structure DecNum where
  man : Nat
  sc : Nat
deriving Repr, DecidableEq

/-- Strip factors of 10 shared between mantissa and scale. -/
def decCanonAux : Nat → Nat → Nat → DecNum
  | 0, m, s => ⟨m, s⟩
  | f + 1, m, s =>
    if s ≠ 0 && m % 10 = 0 then decCanonAux f (m / 10) (s - 1) else ⟨m, s⟩

/-- Canonical decimal from mantissa and scale. -/
def decCanon (m s : Nat) : DecNum := decCanonAux s m s

/-- Multiply a decimal by a natural number. -/
def DecNum.mulNat (a : DecNum) (k : Nat) : DecNum := decCanon (a.man * k) a.sc

/-- Value comparison of decimals by cross-multiplication. -/
def DecNum.le (a b : DecNum) : Bool := a.man * 10 ^ b.sc ≤ b.man * 10 ^ a.sc

/-- Strict value comparison of decimals. -/
def DecNum.ltb (a b : DecNum) : Bool := a.man * 10 ^ b.sc < b.man * 10 ^ a.sc

/-- Model of `parseFloat` restricted to tokens drawn from `[\d.]+` (the only
tokens the salary parser feeds it): leading digits, an optional dot, then
fractional digits; a token with no digit before a second dot stops there; a
token with no digits at all is NaN (`none`). -/
def jsParseFloat (t : List Char) : Option DecNum :=
  let ip := t.takeWhile Char.isDigit
  let rest := t.drop ip.length
  match rest with
  | '.' :: r2 =>
    let fp := r2.takeWhile Char.isDigit
    if ip.isEmpty && fp.isEmpty then none
    else some (decCanon (decVal ip * 10 ^ fp.length + decVal fp) fp.length)
  | _ => if ip.isEmpty then none else some ⟨decVal ip, 0⟩

/-- Comparison used to model `numbers.sort((a, b) => a - b)`.  ECMA-262
SortCompare treats a NaN comparator result as 0; for the NaN-free number
lists arising in this development, the stable insertion sort below agrees
with the engine's sort. -/
def jsNumLe (a b : Option DecNum) : Bool :=
  match a, b with
  | some x, some y => x.le y
  | _, _ => true

/-- JS `<` on numbers: any comparison against NaN is false. -/
def jsNumLt (a b : Option DecNum) : Bool :=
  match a, b with
  | some x, some y => x.ltb y
  | _, _ => false

/-- Insert into a sorted list (stable). -/
def jsNumInsert (x : Option DecNum) : List (Option DecNum) → List (Option DecNum)
  | [] => [x]
  | y :: ys => if jsNumLe y x then y :: jsNumInsert x ys else x :: y :: ys

/-- Sort a number list ascending. -/
def jsNumSort : List (Option DecNum) → List (Option DecNum)
  | [] => []
  | x :: xs => jsNumInsert x (jsNumSort xs)

/-- Result record of `parseSalaryRange`: the outer `Option` is SQL/JS null,
the inner `Option` distinguishes NaN (`none`) from a real value. -/
structure SalaryParse where
  min : Option (Option DecNum)
  max : Option (Option DecNum)
  type : Option String
deriving Repr, DecidableEq

/-- Regex `£?([\d.]+)\s*k?` (flags `gi`) of `parseSalaryRange`. -/
def salaryNumRe : RE :=
  rSeq [rOptG (RE.lit '£'), RE.grp 1 (rPlusG (rClsOf [CItem.digit, CItem.ch '.'])),
    rStarG rSpaceC, rOptG (RE.lit 'k')]

/-- Salary `type` keyword classification on the lowercased text. -/
def salaryTypeOf (text : List Char) : Option String :=
  if listHasRun "per annum".data text || listHasRun "p.a.".data text ||
      listHasRun "annual".data text then
    some "annual"
  else if listHasRun "per hour".data text || listHasRun "hourly".data text ||
      listHasRun "/hour".data text then
    some "hourly"
  else if listHasRun "per day".data text || listHasRun "daily".data text ||
      listHasRun "/day".data text then
    some "daily"
  else if listHasRun "per week".data text || listHasRun "weekly".data text then
    some "weekly"
  else none

/-- One iteration of the number-extraction loop of `parseSalaryRange`: the
match value, the `fullMatch = text.substring(index, index + match[0].length + 1)`
suffix check (note: one character past the match), and the small-annual
heuristic. -/
def salaryNumValue (text : List Char) (ty : Option String)
    (m : Nat × Nat × Caps) : Option DecNum :=
  let v := jsParseFloat (m.2.2.g1.getD [])
  let fullMatch := jsSubstring text m.1 (m.1 + m.2.1 + 1)
  if listEndsWith fullMatch "k".data then v.map (fun x => x.mulNat 1000)
  else if jsNumLt v (some ⟨1000, 0⟩) && ty = some "annual" then
    v.map (fun x => x.mulNat 1000)
  else v

/-- The `parseSalaryRange` function of src/worker/utils.js. -/
def parseSalaryRange (salaryText : Option String) : SalaryParse :=
  if !truthy salaryText then ⟨none, none, none⟩
  else
    let text := jsTrim (lrep "," "" (toLowerList (salaryText.getD "").data))
    let ty := salaryTypeOf text
    let numbers := (jsMatchAll salaryNumRe text).map (salaryNumValue text ty)
    match jsNumSort numbers with
    | [] => ⟨none, none, ty⟩
    | n :: rest =>
      ⟨some n, some (rest.getLastD n), some (ty.getD "annual")⟩

/-- Month-name lookup table of `parseDate` (same keys as the source's
`months` object). -/
def monthsTable : List (String × String) :=
  [("january", "01"), ("february", "02"), ("march", "03"), ("april", "04"),
   ("may", "05"), ("june", "06"), ("july", "07"), ("august", "08"),
   ("september", "09"), ("october", "10"), ("november", "11"), ("december", "12"),
   ("jan", "01"), ("feb", "02"), ("mar", "03"), ("apr", "04"),
   ("jun", "06"), ("jul", "07"), ("aug", "08"), ("sep", "09"), ("oct", "10"),
   ("nov", "11"), ("dec", "12")]

/-- Association lookup on character-list keys. -/
def lookupMonth (k : List Char) : List (String × String) → Option String
  | [] => none
  | (a, v) :: rest => if a.data = k then some v else lookupMonth k rest

/-- Model of `String.prototype.padStart(2, "0")`. -/
def pad2 (s : List Char) : List Char :=
  List.replicate (2 - s.length) '0' ++ s

/-- Regex `(\d{1,2})[\/\-](\d{1,2})[\/\-](\d{4})` of `parseDate`. -/
def ukDateRe : RE :=
  rSeq [RE.grp 1 (rRep 1 2 false rDigitC), rIn "/-",
    RE.grp 2 (rRep 1 2 false rDigitC), rIn "/-",
    RE.grp 3 (rRep 4 4 false rDigitC)]

/-- Regex `(\d{1,2})\s+(\w+)\s+(\d{4})` of `parseDate`. -/
def textDateRe : RE :=
  rSeq [RE.grp 1 (rRep 1 2 false rDigitC), rPlusG rSpaceC,
    RE.grp 2 (rPlusG (rClsOf [CItem.word])), rPlusG rSpaceC,
    RE.grp 3 (rRep 4 4 false rDigitC)]

/-- The `parseDate` function of src/worker/utils.js.  Its first step calls
the ECMAScript `Date` constructor, whose accepted formats are
implementation-defined; that step is abstracted as the parameter `dImpl`,
which returns the UTC ISO date part when the engine parses the text and
`none` otherwise.  No theorem in this file depends on `dImpl`'s value. -/
def parseDate (dImpl : String → Option String) (dateText : Option String) :
    Option String :=
  if !truthy dateText then none
  else
    let text := jsTrim (dateText.getD "").data
    match dImpl text.asString with
    | some iso => some iso
    | none =>
      match jsMatchFirst ukDateRe text with
      | some (_, _, c) =>
        some ((c.g3.getD []) ++ '-' :: pad2 (c.g2.getD []) ++
          '-' :: pad2 (c.g1.getD [])).asString
      | none =>
        match jsMatchFirst textDateRe (toLowerList text) with
        | some (_, _, c) =>
          match lookupMonth (c.g2.getD []) monthsTable with
          | some m =>
            some ((c.g3.getD []) ++ '-' :: m.data ++
              '-' :: pad2 (c.g1.getD [])).asString
          | none => none
        | none => none

/-- 32-bit signed wrap-around (`ToInt32`). -/
def js32 (n : Int) : Int := (n + 2 ^ 31) % 2 ^ 32 - 2 ^ 31

/-- One step of the rolling hash of `generateJobGuid`:
`hash = ((hash << 5) - hash) + charCode` followed by `hash = hash & hash`
(which coerces back to a signed 32-bit integer). -/
def jsHashStep (h : Int) (code : Nat) : Int :=
  js32 (js32 (h * 32) - h + code)

/-- The rolling string hash of `generateJobGuid`; `charCodeAt` yields the
UTF-16 code unit, which equals the code point on the BMP inputs here. -/
def jsStringHash (s : List Char) : Int :=
  s.foldl (fun h c => jsHashStep h c.toNat) 0

/-- Digit of `Number.prototype.toString(36)`. -/
def base36Digit (n : Nat) : Char :=
  if n < 10 then Char.ofNat (48 + n) else Char.ofNat (87 + n)

/-- Base-36 digit expansion (fuel-driven; fuel `n + 1` suffices). -/
def natToBase36Aux : Nat → Nat → List Char
  | 0, _ => []
  | f + 1, n => if n = 0 then [] else natToBase36Aux f (n / 36) ++ [base36Digit (n % 36)]

/-- `n.toString(36)` for natural `n`. -/
def natToBase36 (n : Nat) : String :=
  if n = 0 then "0" else (natToBase36Aux (n + 1) n).asString

/-- The `generateJobGuid` function of src/worker/utils.js.  The fallback for
a missing URL is `job-` followed by the current time and a random suffix;
that nondeterministic string is threaded as the `fresh` parameter. -/
def generateJobGuid (fresh : String) (sourceUrl : Option String) : String :=
  if !truthy sourceUrl then fresh
  else
    let str := jsTrim (toLowerList (sourceUrl.getD "").data)
    "iom-gov-" ++ natToBase36 (jsStringHash str).natAbs

/-! ## parser.js embeddings -/

/-- The `normalizeUrl` helper of src/worker/parser.js. -/
def normalizeUrl (url : Option String) : Option String :=
  if !truthy url then none
  else
    let u := (jsTrim (url.getD "").data).asString
    if u.data.take 7 = "http://".data || u.data.take 8 = "https://".data then some u
    else if u.data.take 2 = "//".data then some ("https:" ++ u)
    else if u.data.take 1 = "/".data then some ("https://services.gov.im" ++ u)
    else some ("https://services.gov.im/" ++ u)

/-- Shorthand: the `[\d,]` class. -/
def rNumC : RE := rClsOf [CItem.digit, CItem.ch ',']

/-- Shorthand: the `[:\s]*` label separator. -/
def rLabelSep : RE := rStarG (rClsOf [CItem.ch ':', CItem.space])

/-- Regex 1 of `jobPatterns`:
`<article[^>]*class="[^"]*job[^"]*"[^>]*>([\s\S]*?)<\/article>` (gi). -/
def jobPat1 : RE :=
  rSeq [rLit "<article", rStarG (rNotIn ">"), rLit "class=\"", rStarG (rNotIn "\""),
    rLit "job", rStarG (rNotIn "\""), rLit "\"", rStarG (rNotIn ">"), rLit ">",
    RE.grp 1 (rStarL rAny), rLit "</article>"]

/-- Regex 2 of `jobPatterns`:
`<div[^>]*class="[^"]*job-result[^"]*"[^>]*>([\s\S]*?)<\/div>\s*(?=<div[^>]*class="[^"]*job-result|$)` (gi). -/
def jobPat2 : RE :=
  rSeq [rLit "<div", rStarG (rNotIn ">"), rLit "class=\"", rStarG (rNotIn "\""),
    rLit "job-result", rStarG (rNotIn "\""), rLit "\"", rStarG (rNotIn ">"), rLit ">",
    RE.grp 1 (rStarL rAny), rLit "</div>", rStarG rSpaceC,
    RE.ahead (RE.alt
      (rSeq [rLit "<div", rStarG (rNotIn ">"), rLit "class=\"", rStarG (rNotIn "\""),
        rLit "job-result"])
      RE.eos)]

/-- Regex 3 of `jobPatterns`:
`<div[^>]*class="[^"]*vacancy[^"]*"[^>]*>([\s\S]*?)<\/div>\s*(?=<div[^>]*class="[^"]*vacancy|$)` (gi). -/
def jobPat3 : RE :=
  rSeq [rLit "<div", rStarG (rNotIn ">"), rLit "class=\"", rStarG (rNotIn "\""),
    rLit "vacancy", rStarG (rNotIn "\""), rLit "\"", rStarG (rNotIn ">"), rLit ">",
    RE.grp 1 (rStarL rAny), rLit "</div>", rStarG rSpaceC,
    RE.ahead (RE.alt
      (rSeq [rLit "<div", rStarG (rNotIn ">"), rLit "class=\"", rStarG (rNotIn "\""),
        rLit "vacancy"])
      RE.eos)]

/-- Regex 4 of `jobPatterns`:
`<li[^>]*class="[^"]*job[^"]*"[^>]*>([\s\S]*?)<\/li>` (gi). -/
def jobPat4 : RE :=
  rSeq [rLit "<li", rStarG (rNotIn ">"), rLit "class=\"", rStarG (rNotIn "\""),
    rLit "job", rStarG (rNotIn "\""), rLit "\"", rStarG (rNotIn ">"), rLit ">",
    RE.grp 1 (rStarL rAny), rLit "</li>"]

/-- Regex 5 of `jobPatterns`:
`<tr[^>]*class="[^"]*job[^"]*"[^>]*>([\s\S]*?)<\/tr>` (gi). -/
def jobPat5 : RE :=
  rSeq [rLit "<tr", rStarG (rNotIn ">"), rLit "class=\"", rStarG (rNotIn "\""),
    rLit "job", rStarG (rNotIn "\""), rLit "\"", rStarG (rNotIn ">"), rLit ">",
    RE.grp 1 (rStarL rAny), rLit "</tr>"]

/-- The ordered `jobPatterns` list of `parseJobListings`. -/
def jobPatterns : List RE := [jobPat1, jobPat2, jobPat3, jobPat4, jobPat5]

/-- Regex of `parseJobLinks`:
`<a[^>]*href=["']([^"']*(?:job|vacancy|position|career)[^"']*)["'][^>]*>([\s\S]*?)<\/a>` (gi). -/
def linkPattern : RE :=
  rSeq [rLit "<a", rStarG (rNotIn ">"), rLit "href=", rIn "\"'",
    RE.grp 1 (rSeq [rStarG (rNotIn "\"'"),
      rAlts (rLit "job") [rLit "vacancy", rLit "position", rLit "career"],
      rStarG (rNotIn "\"'")]),
    rIn "\"'", rStarG (rNotIn ">"), rLit ">",
    RE.grp 2 (rStarL rAny), rLit "</a>"]

/-- Title regex 1: `<h[1-4][^>]*>\s*<a[^>]*href=["']([^"']+)["'][^>]*>([^<]+)<\/a>` (i). -/
def titlePat1 : RE :=
  rSeq [rLit "<h", rClsOf [CItem.rng '1' '4'], rStarG (rNotIn ">"), rLit ">",
    rStarG rSpaceC, rLit "<a", rStarG (rNotIn ">"), rLit "href=", rIn "\"'",
    RE.grp 1 (rPlusG (rNotIn "\"'")), rIn "\"'", rStarG (rNotIn ">"), rLit ">",
    RE.grp 2 (rPlusG (rNotIn "<")), rLit "</a>"]

/-- Title regex 2: `<a[^>]*class="[^"]*title[^"]*"[^>]*href=["']([^"']+)["'][^>]*>([^<]+)<\/a>` (i). -/
def titlePat2 : RE :=
  rSeq [rLit "<a", rStarG (rNotIn ">"), rLit "class=\"", rStarG (rNotIn "\""),
    rLit "title", rStarG (rNotIn "\""), rLit "\"", rStarG (rNotIn ">"),
    rLit "href=", rIn "\"'", RE.grp 1 (rPlusG (rNotIn "\"'")), rIn "\"'",
    rStarG (rNotIn ">"), rLit ">", RE.grp 2 (rPlusG (rNotIn "<")), rLit "</a>"]

/-- Title regex 3: `<a[^>]*href=["']([^"']+)["'][^>]*class="[^"]*title[^"]*"[^>]*>([^<]+)<\/a>` (i). -/
def titlePat3 : RE :=
  rSeq [rLit "<a", rStarG (rNotIn ">"), rLit "href=", rIn "\"'",
    RE.grp 1 (rPlusG (rNotIn "\"'")), rIn "\"'", rStarG (rNotIn ">"),
    rLit "class=\"", rStarG (rNotIn "\""), rLit "title", rStarG (rNotIn "\""),
    rLit "\"", rStarG (rNotIn ">"), rLit ">",
    RE.grp 2 (rPlusG (rNotIn "<")), rLit "</a>"]

/-- Title regex 4: `<h[1-4][^>]*>([^<]+)<\/h[1-4]>` (i). -/
def titlePat4 : RE :=
  rSeq [rLit "<h", rClsOf [CItem.rng '1' '4'], rStarG (rNotIn ">"), rLit ">",
    RE.grp 1 (rPlusG (rNotIn "<")), rLit "</h", rClsOf [CItem.rng '1' '4'], rLit ">"]

/-- Title regex 5: `<strong[^>]*>\s*<a[^>]*href=["']([^"']+)["'][^>]*>([^<]+)<\/a>` (i). -/
def titlePat5 : RE :=
  rSeq [rLit "<strong", rStarG (rNotIn ">"), rLit ">", rStarG rSpaceC,
    rLit "<a", rStarG (rNotIn ">"), rLit "href=", rIn "\"'",
    RE.grp 1 (rPlusG (rNotIn "\"'")), rIn "\"'", rStarG (rNotIn ">"), rLit ">",
    RE.grp 2 (rPlusG (rNotIn "<")), rLit "</a>"]

/-- The ordered `titlePatterns` list of `parseJobFromHtml`. -/
def titlePatterns : List RE := [titlePat1, titlePat2, titlePat3, titlePat4, titlePat5]

/-- URL fallback regex of `parseJobFromHtml`:
`<a[^>]*href=["']([^"']*(?:job|vacancy|details|view)[^"']*)["']` (i). -/
def urlFallbackPat : RE :=
  rSeq [rLit "<a", rStarG (rNotIn ">"), rLit "href=", rIn "\"'",
    RE.grp 1 (rSeq [rStarG (rNotIn "\"'"),
      rAlts (rLit "job") [rLit "vacancy", rLit "details", rLit "view"],
      rStarG (rNotIn "\"'")]),
    rIn "\"'"]

/-- Employer regex 1: `(?:employer|department|organisation|company)[:\s]*<[^>]*>([^<]+)<` (i). -/
def employerPat1 : RE :=
  rSeq [rAlts (rLit "employer") [rLit "department", rLit "organisation", rLit "company"],
    rLabelSep, rLit "<", rStarG (rNotIn ">"), rLit ">",
    RE.grp 1 (rPlusG (rNotIn "<")), rLit "<"]

/-- Employer regex 2: `<[^>]*class="[^"]*(?:employer|company|dept)[^"]*"[^>]*>([^<]+)<` (i). -/
def employerPat2 : RE :=
  rSeq [rLit "<", rStarG (rNotIn ">"), rLit "class=\"", rStarG (rNotIn "\""),
    rAlts (rLit "employer") [rLit "company", rLit "dept"], rStarG (rNotIn "\""),
    rLit "\"", rStarG (rNotIn ">"), rLit ">", RE.grp 1 (rPlusG (rNotIn "<")), rLit "<"]

/-- Employer regex 3: `(?:employer|department|organisation)[:\s]*([^<\n]+)` (i). -/
def employerPat3 : RE :=
  rSeq [rAlts (rLit "employer") [rLit "department", rLit "organisation"],
    rLabelSep, RE.grp 1 (rPlusG (rNotIn "<\n"))]

/-- The ordered `employerPatterns` list. -/
def employerPatterns : List RE := [employerPat1, employerPat2, employerPat3]

/-- Location regex 1: `(?:location|based at|work location)[:\s]*<[^>]*>([^<]+)<` (i). -/
def locationPat1 : RE :=
  rSeq [rAlts (rLit "location") [rLit "based at", rLit "work location"],
    rLabelSep, rLit "<", rStarG (rNotIn ">"), rLit ">",
    RE.grp 1 (rPlusG (rNotIn "<")), rLit "<"]

/-- Location regex 2: `<[^>]*class="[^"]*location[^"]*"[^>]*>([^<]+)<` (i). -/
def locationPat2 : RE :=
  rSeq [rLit "<", rStarG (rNotIn ">"), rLit "class=\"", rStarG (rNotIn "\""),
    rLit "location", rStarG (rNotIn "\""), rLit "\"", rStarG (rNotIn ">"), rLit ">",
    RE.grp 1 (rPlusG (rNotIn "<")), rLit "<"]

/-- Location regex 3: `(?:location|based)[:\s]*([^<\n,]+)` (i). -/
def locationPat3 : RE :=
  rSeq [rAlts (rLit "location") [rLit "based"], rLabelSep,
    RE.grp 1 (rPlusG (rNotIn "<\n,"))]

/-- The ordered `locationPatterns` list. -/
def locationPatterns : List RE := [locationPat1, locationPat2, locationPat3]

/-- Salary regex 1: `(?:salary|pay|wage|compensation)[:\s]*<[^>]*>([^<]+)<` (i). -/
def salaryPat1 : RE :=
  rSeq [rAlts (rLit "salary") [rLit "pay", rLit "wage", rLit "compensation"],
    rLabelSep, rLit "<", rStarG (rNotIn ">"), rLit ">",
    RE.grp 1 (rPlusG (rNotIn "<")), rLit "<"]

/-- Salary regex 2: `<[^>]*class="[^"]*salary[^"]*"[^>]*>([^<]+)<` (i). -/
def salaryPat2 : RE :=
  rSeq [rLit "<", rStarG (rNotIn ">"), rLit "class=\"", rStarG (rNotIn "\""),
    rLit "salary", rStarG (rNotIn "\""), rLit "\"", rStarG (rNotIn ">"), rLit ">",
    RE.grp 1 (rPlusG (rNotIn "<")), rLit "<"]

/-- Salary regex 3:
`(£[\d,]+(?:\s*[-–]\s*£[\d,]+)?(?:\s*(?:per|p\.a\.|pa|annually|per annum))?)` (i). -/
def salaryPat3 : RE :=
  RE.grp 1 (rSeq [rLit "£", rPlusG rNumC,
    rOptG (rSeq [rStarG rSpaceC, rIn "-–", rStarG rSpaceC, rLit "£", rPlusG rNumC]),
    rOptG (rSeq [rStarG rSpaceC,
      rAlts (rLit "per") [rLit "p.a.", rLit "pa", rLit "annually", rLit "per annum"]])])

/-- Salary regex 4: `(?:salary|pay)[:\s]*([\d,]+\s*[-–]\s*[\d,]+)` (i). -/
def salaryPat4 : RE :=
  rSeq [rAlts (rLit "salary") [rLit "pay"], rLabelSep,
    RE.grp 1 (rSeq [rPlusG rNumC, rStarG rSpaceC, rIn "-–", rStarG rSpaceC, rPlusG rNumC])]

/-- The ordered `salaryPatterns` list. -/
def salaryPatterns : List RE := [salaryPat1, salaryPat2, salaryPat3, salaryPat4]

/-- Job-type regex 1: `(?:job type|contract|employment type)[:\s]*<[^>]*>([^<]+)<` (i). -/
def jobTypePat1 : RE :=
  rSeq [rAlts (rLit "job type") [rLit "contract", rLit "employment type"],
    rLabelSep, rLit "<", rStarG (rNotIn ">"), rLit ">",
    RE.grp 1 (rPlusG (rNotIn "<")), rLit "<"]

/-- Job-type regex 2: `<[^>]*class="[^"]*(?:job-type|contract)[^"]*"[^>]*>([^<]+)<` (i). -/
def jobTypePat2 : RE :=
  rSeq [rLit "<", rStarG (rNotIn ">"), rLit "class=\"", rStarG (rNotIn "\""),
    rAlts (rLit "job-type") [rLit "contract"], rStarG (rNotIn "\""), rLit "\"",
    rStarG (rNotIn ">"), rLit ">", RE.grp 1 (rPlusG (rNotIn "<")), rLit "<"]

/-- Job-type regex 3:
`(full[- ]?time|part[- ]?time|permanent|temporary|fixed[- ]?term|contract)` (i). -/
def jobTypePat3 : RE :=
  RE.grp 1 (rAlts (rSeq [rLit "full", rOptG (rIn "- "), rLit "time"])
    [rSeq [rLit "part", rOptG (rIn "- "), rLit "time"],
     rLit "permanent", rLit "temporary",
     rSeq [rLit "fixed", rOptG (rIn "- "), rLit "term"], rLit "contract"])

/-- The ordered `jobTypePatterns` list. -/
def jobTypePatterns : List RE := [jobTypePat1, jobTypePat2, jobTypePat3]

/-- Closing-date regex 1: `(?:closing|deadline|closes|apply by)[:\s]*<[^>]*>([^<]+)<` (i). -/
def closingPat1 : RE :=
  rSeq [rAlts (rLit "closing") [rLit "deadline", rLit "closes", rLit "apply by"],
    rLabelSep, rLit "<", rStarG (rNotIn ">"), rLit ">",
    RE.grp 1 (rPlusG (rNotIn "<")), rLit "<"]

/-- Closing-date regex 2: `<[^>]*class="[^"]*(?:closing|deadline)[^"]*"[^>]*>([^<]+)<` (i). -/
def closingPat2 : RE :=
  rSeq [rLit "<", rStarG (rNotIn ">"), rLit "class=\"", rStarG (rNotIn "\""),
    rAlts (rLit "closing") [rLit "deadline"], rStarG (rNotIn "\""), rLit "\"",
    rStarG (rNotIn ">"), rLit ">", RE.grp 1 (rPlusG (rNotIn "<")), rLit "<"]

/-- Closing-date regex 3: `(?:closing|closes|deadline)[:\s]*([^\n<]+)` (i). -/
def closingPat3 : RE :=
  rSeq [rAlts (rLit "closing") [rLit "closes", rLit "deadline"], rLabelSep,
    RE.grp 1 (rPlusG (rNotIn "\n<"))]

/-- The ordered `closingPatterns` list. -/
def closingPatterns : List RE := [closingPat1, closingPat2, closingPat3]

/-- Posted-date regex 1: `(?:posted|published|date added)[:\s]*<[^>]*>([^<]+)<` (i). -/
def postedPat1 : RE :=
  rSeq [rAlts (rLit "posted") [rLit "published", rLit "date added"],
    rLabelSep, rLit "<", rStarG (rNotIn ">"), rLit ">",
    RE.grp 1 (rPlusG (rNotIn "<")), rLit "<"]

/-- Posted-date regex 2: `<[^>]*class="[^"]*(?:posted|published)[^"]*"[^>]*>([^<]+)<` (i). -/
def postedPat2 : RE :=
  rSeq [rLit "<", rStarG (rNotIn ">"), rLit "class=\"", rStarG (rNotIn "\""),
    rAlts (rLit "posted") [rLit "published"], rStarG (rNotIn "\""), rLit "\"",
    rStarG (rNotIn ">"), rLit ">", RE.grp 1 (rPlusG (rNotIn "<")), rLit "<"]

/-- Posted-date regex 3: `(?:posted|published)[:\s]*([^\n<]+)` (i). -/
def postedPat3 : RE :=
  rSeq [rAlts (rLit "posted") [rLit "published"], rLabelSep,
    RE.grp 1 (rPlusG (rNotIn "\n<"))]

/-- The ordered `postedPatterns` list. -/
def postedPatterns : List RE := [postedPat1, postedPat2, postedPat3]

/-- Summary regex 1:
`<[^>]*class="[^"]*(?:summary|description|intro)[^"]*"[^>]*>([\s\S]*?)<\/[^>]+>` (i). -/
def summaryPat1 : RE :=
  rSeq [rLit "<", rStarG (rNotIn ">"), rLit "class=\"", rStarG (rNotIn "\""),
    rAlts (rLit "summary") [rLit "description", rLit "intro"], rStarG (rNotIn "\""),
    rLit "\"", rStarG (rNotIn ">"), rLit ">", RE.grp 1 (rStarL rAny),
    rLit "</", rPlusG (rNotIn ">"), rLit ">"]

/-- Summary regex 2: `<p[^>]*>([\s\S]{50,500}?)<\/p>` (i). -/
def summaryPat2 : RE :=
  rSeq [rLit "<p", rStarG (rNotIn ">"), rLit ">",
    RE.grp 1 (rRep 50 500 true rAny), rLit "</p>"]

/-- The ordered `summaryPatterns` list. -/
def summaryPatterns : List RE := [summaryPat1, summaryPat2]

/-- A parsed job record as produced by the listing parser (the fields bound
by `storeJobsBasic`; a field the JS code leaves `undefined` or `null` is
`none`).  Salary numbers use the outer-`Option`-null / inner-`Option`-NaN
convention of `SalaryParse`. -/
structure Job where
  title : Option String
  employer : Option String
  location : Option String
  salary_text : Option String
  salary_min : Option (Option DecNum)
  salary_max : Option (Option DecNum)
  salary_type : Option String
  job_type : Option String
  classification : Option String
  area : Option String
  hours_option : Option String
  hours_type : Option String
  posted_date : Option String
  closing_date : Option String
  summary : Option String
  source_url : Option String
  guid : Option String
  scraped_at : Option String
deriving Repr, DecidableEq

/-- The all-null record initialized at the top of `parseJobFromHtml`
(`scraped_at` is set there from `new Date().toISOString()`, threaded as
`now`). -/
def emptyJob (now : String) : Job :=
  ⟨none, none, none, none, none, none, none, none, none, none, none, none,
   none, none, none, none, none, some now⟩

/-- Truthiness of a captured group (an unset group is `undefined`, an empty
capture is falsy). -/
def truthyCap : Option (List Char) → Bool
  | none => false
  | some l => !l.isEmpty

/-- First pattern of the list that matches, returning its captures
(the `for (const pattern of patterns) { const match = html.match(pattern) …
break }` idiom). -/
def firstCaps : List RE → List Char → Option Caps
  | [], _ => none
  | p :: ps, s =>
    match jsMatchFirst p s with
    | some (_, _, c) => some c
    | none => firstCaps ps s

/-- Title extraction step of `parseJobFromHtml`: on the first matching title
pattern, a second capture group means (url, title), a single group is a bare
title. -/
def applyTitle (html : List Char) (j : Job) : Job :=
  match firstCaps titlePatterns html with
  | none => j
  | some c =>
    if truthyCap c.g2 then
      { j with title := some (cleanText (c.g2.getD [])).asString,
               source_url := normalizeUrl (some (c.g1.getD []).asString) }
    else
      { j with title := some (cleanText (c.g1.getD [])).asString }

/-- URL fallback step: `if (!job.source_url)` scan for any job-detail link. -/
def applyUrlFallback (html : List Char) (j : Job) : Job :=
  if truthy j.source_url then j
  else
    match jsMatchFirst urlFallbackPat html with
    | some (_, _, c) => { j with source_url := normalizeUrl (some (c.g1.getD []).asString) }
    | none => j

/-- Employer extraction step. -/
def applyEmployer (html : List Char) (j : Job) : Job :=
  match firstCaps employerPatterns html with
  | some c => { j with employer := some (cleanText (c.g1.getD [])).asString }
  | none => j

/-- Location extraction step. -/
def applyLocation (html : List Char) (j : Job) : Job :=
  match firstCaps locationPatterns html with
  | some c => { j with location := some (cleanText (c.g1.getD [])).asString }
  | none => j

/-- Salary extraction step (raw text plus the parsed min/max/type). -/
def applySalary (html : List Char) (j : Job) : Job :=
  match firstCaps salaryPatterns html with
  | some c =>
    let st := (cleanText (c.g1.getD [])).asString
    let parsed := parseSalaryRange (some st)
    { j with salary_text := some st, salary_min := parsed.min,
             salary_max := parsed.max, salary_type := parsed.type }
  | none => j

/-- Job-type extraction step (`cleanText(match[1]).toLowerCase()`). -/
def applyJobType (html : List Char) (j : Job) : Job :=
  match firstCaps jobTypePatterns html with
  | some c => { j with job_type := some (toLowerList (cleanText (c.g1.getD []))).asString }
  | none => j

/-- Closing-date extraction step (`parseDate(match[1])`, which may yield
null). -/
def applyClosing (dImpl : String → Option String) (html : List Char) (j : Job) : Job :=
  match firstCaps closingPatterns html with
  | some c => { j with closing_date := parseDate dImpl (some (c.g1.getD []).asString) }
  | none => j

/-- Posted-date extraction step. -/
def applyPosted (dImpl : String → Option String) (html : List Char) (j : Job) : Job :=
  match firstCaps postedPatterns html with
  | some c => { j with posted_date := parseDate dImpl (some (c.g1.getD []).asString) }
  | none => j

/-- Summary extraction step (`cleanText(match[1]).substring(0, 500)`). -/
def applySummary (html : List Char) (j : Job) : Job :=
  match firstCaps summaryPatterns html with
  | some c => { j with summary := some ((cleanText (c.g1.getD [])).take 500).asString }
  | none => j

/-- The `parseJobFromHtml` function of src/worker/parser.js: sequential
field extraction on a listing snippet, then
`job.guid = generateJobGuid(job.source_url || job.title)`. -/
def parseJobFromHtml (dImpl : String → Option String) (now fresh : String)
    (html : List Char) : Job :=
  let j := emptyJob now
  let j := applyTitle html j
  let j := applyUrlFallback html j
  let j := applyEmployer html j
  let j := applyLocation html j
  let j := applySalary html j
  let j := applyJobType html j
  let j := applyClosing dImpl html j
  let j := applyPosted dImpl html j
  let j := applySummary html j
  { j with guid := some (generateJobGuid fresh (jsOrOpt j.source_url j.title)) }

/-- One step of the `parseJobLinks` loop over `linkPattern` matches,
carrying the `seenUrls` set; returns the accepted jobs in order. -/
def parseJobLinksAux (now fresh : String) :
    List (Nat × Nat × Caps) → List (Option String) → List Job
  | [], _ => []
  | m :: ms, seen =>
    let url := (m.2.2.g1.getD []).asString
    let linkText := cleanText (m.2.2.g2.getD [])
    if linkText.length < 5 || linkText.length > 200 then
      parseJobLinksAux now fresh ms seen
    else if jsIncludes url "page=" || jsIncludes url "sort=" then
      parseJobLinksAux now fresh ms seen
    else
      let lowerText := (toLowerList linkText).asString
      if lowerText = "job search" || lowerText = "jobs" || lowerText = "vacancies" then
        parseJobLinksAux now fresh ms seen
      else if !jsIncludes url "viewjob" then
        parseJobLinksAux now fresh ms seen
      else
        let normalized := normalizeUrl (some url)
        if seen.contains normalized then
          parseJobLinksAux now fresh ms seen
        else
          { emptyJob now with
              title := some linkText.asString,
              source_url := normalized,
              guid := some (generateJobGuid fresh (some url)) } ::
            parseJobLinksAux now fresh ms (normalized :: seen)

/-- The `parseJobLinks` fallback of src/worker/parser.js (link scan). -/
def parseJobLinks (now fresh : String) (html : List Char) : List Job :=
  parseJobLinksAux now fresh (jsMatchAll linkPattern html) []

/-- First job-container pattern with a non-empty `matchAll` result. -/
def firstHits : List RE → List Char → List (Nat × Nat × Caps)
  | [], _ => []
  | p :: ps, s =>
    match jsMatchAll p s with
    | [] => firstHits ps s
    | ms => ms

/-- The `parseJobListings` function of src/worker/parser.js: try the job
container patterns in order; parse each hit with `parseJobFromHtml`
(`match[1] || match[0]` as snippet) and keep records with truthy title and
source_url; with no container hits, fall back to the link scan.  (The JS
per-item try/catch is unreachable in this model: no step throws.) -/
def parseJobListings (dImpl : String → Option String) (now fresh : String)
    (html : String) : List Job :=
  match firstHits jobPatterns html.data with
  | [] => parseJobLinks now fresh html.data
  | ms =>
    ms.filterMap (fun m =>
      let jobHtml :=
        if truthyCap m.2.2.g1 then m.2.2.g1.getD []
        else jsSubstring html.data m.1 (m.1 + m.2.1)
      let job := parseJobFromHtml dImpl now fresh jobHtml
      if truthy job.title && truthy job.source_url then some job else none)

/-- Regex of `extractJobtrainUrl`:
`https?:\/\/(?:www\.)?jobtrain\.co\.uk\/[^\s<>"']+` (gi). -/
def jobtrainUrlPat : RE :=
  rSeq [rLit "http", rOptG (RE.lit 's'), rLit "://", rOptG (rLit "www."),
    rLit "jobtrain.co.uk/",
    rPlusG (rNClsOf [CItem.space, CItem.ch '<', CItem.ch '>', CItem.ch '"', CItem.ch '\''])]

/-- Strip one trailing run of `[.,;:!?)]` (the `replace(/[.,;:!?)]+$/, "")`
cleanup). -/
def stripTrailingPunct (s : List Char) : List Char :=
  (s.reverse.dropWhile (fun c => c = '.' || c = ',' || c = ';' || c = ':' ||
    c = '!' || c = '?' || c = ')')).reverse

/-- The `extractJobtrainUrl` function of src/worker/parser.js. -/
def extractJobtrainUrl (text : Option String) : Option String :=
  if !truthy text then none
  else
    match jsMatchAll jobtrainUrlPat (text.getD "").data with
    | [] => none
    | (st, len, _) :: _ =>
      some (stripTrailingPunct (jsSubstring (text.getD "").data st (st + len))).asString

/-- The `isJobtrainRedirect` heuristic of src/worker/parser.js:
`/jobtrain\.co\.uk/i.test(text) && text.length < 500`. -/
def isJobtrainRedirect (text : Option String) : Bool :=
  if !truthy text then false
  else
    listHasRun "jobtrain.co.uk".data (toLowerList (text.getD "").data) &&
      decide ((text.getD "").data.length < 500)

/-! ## scraper.js: fetchPage -/

/-- Input to `fetchPage`: either the `fetch` call threw (network error with a
message), or a response arrived with an HTTP status and a body text. -/
inductive FetchInput where
  | netErr (msg : String)
  | resp (status : Nat) (body : String)
deriving Repr, DecidableEq

/-- Result record of `fetchPage`:
`{ html, rawText, error, wafBlocked }`. -/
structure FetchResult where
  html : Option String
  rawText : Option String
  error : Option String
  wafBlocked : Bool
deriving Repr, DecidableEq

/-- `Response.ok`: status in the 2xx range. -/
def respOk (status : Nat) : Bool := 200 ≤ status && status ≤ 299

/-- Decimal digit expansion (fuel-driven; fuel `n + 1` suffices). -/
def natToDecAux : Nat → Nat → List Char
  | 0, _ => []
  | f + 1, n => if n = 0 then [] else natToDecAux f (n / 10) ++ [Char.ofNat (48 + n % 10)]

/-- Decimal rendering of a natural number. -/
def natToDec (n : Nat) : String :=
  if n = 0 then "0" else (natToDecAux (n + 1) n).asString

/-- The `fetchPage` function of src/worker/scraper.js: a non-ok status is
reported as an HTTP error before the body is ever read; an ok response whose
body contains a WAF block signature ("Request Rejected" / "URL was
rejected") is a block with the raw text preserved; otherwise success. -/
def fetchPage : FetchInput → FetchResult
  | .netErr m => ⟨none, none, some m, false⟩
  | .resp status body =>
    if !respOk status then
      ⟨none, none, some ("HTTP " ++ natToDec status), false⟩
    else if jsIncludes body "Request Rejected" || jsIncludes body "URL was rejected" then
      ⟨none, some body, some "WAF blocked", true⟩
    else
      ⟨some body, some body, none, false⟩

/-! ## scraper.js: store layer -/

/-- A persisted row of the `jobs` table (database.sql).  `NOT NULL` columns
are still `Option`-typed; `storeJobsBasic` refuses records that would
violate them, as the SQL engine does.  `additional_info` abstracts the JSON
text to its entry list, and `is_active` abstracts the 0/1 integer to `Bool`;
no claim depends on either encoding. -/
structure Row where
  title : Option String
  employer : Option String
  location : Option String
  salary_text : Option String
  salary_min : Option DecNum
  salary_max : Option DecNum
  salary_type : Option String
  job_type : Option String
  classification : Option String
  area : Option String
  hours_option : Option String
  hours_type : Option String
  posted_date : Option String
  closing_date : Option String
  start_date : Option String
  summary : Option String
  description : Option String
  reference : Option String
  contact_name : Option String
  contact_email : Option String
  contact_phone : Option String
  qualifications : Option String
  experience : Option String
  benefits : Option String
  how_to_apply : Option String
  additional_info : Option (List (String × String))
  raw_html : Option String
  source_url : Option String
  apply_url : Option String
  guid : Option String
  scraped_at : Option String
  updated_at : Option String
  is_active : Bool
deriving Repr, DecidableEq

/-- SQL `COALESCE(a, b)`. -/
def coalesce {α : Type} : Option α → Option α → Option α
  | some x, _ => some x
  | none, b => b

/-- Binding a JS number as a `REAL` parameter: SQLite stores NaN as NULL. -/
def dbNum : Option (Option DecNum) → Option DecNum
  | some (some v) => some v
  | _ => none

/-- The INSERT arm of `storeJobsBasic`'s statement: a fresh row with
`scraped_at = updated_at = now` and `is_active = 1`; columns the statement
does not mention keep their schema default (NULL). -/
def insertRow (now : String) (j : Job) : Row where
  title := j.title
  employer := j.employer
  location := j.location
  salary_text := j.salary_text
  salary_min := dbNum j.salary_min
  salary_max := dbNum j.salary_max
  salary_type := j.salary_type
  job_type := j.job_type
  classification := j.classification
  area := j.area
  hours_option := j.hours_option
  hours_type := j.hours_type
  posted_date := j.posted_date
  closing_date := j.closing_date
  start_date := none
  summary := j.summary
  description := none
  reference := none
  contact_name := none
  contact_email := none
  contact_phone := none
  qualifications := none
  experience := none
  benefits := none
  how_to_apply := none
  additional_info := none
  raw_html := none
  source_url := j.source_url
  apply_url := none
  guid := j.guid
  scraped_at := some now
  updated_at := some now
  is_active := true

/-- The `ON CONFLICT(guid) DO UPDATE SET` arm of `storeJobsBasic`'s
statement, applied to the existing row `r` with the incoming (excluded)
record `j`.  Columns absent from the SET list — among them `salary_type`,
`job_type`, `area`, `posted_date`, `source_url` and `scraped_at` — keep
their stored values. -/
def upsertRow (now : String) (r : Row) (j : Job) : Row :=
  { r with
    title := j.title,
    employer := coalesce j.employer r.employer,
    location := coalesce j.location r.location,
    salary_text := coalesce j.salary_text r.salary_text,
    salary_min := coalesce (dbNum j.salary_min) r.salary_min,
    salary_max := coalesce (dbNum j.salary_max) r.salary_max,
    closing_date := coalesce j.closing_date r.closing_date,
    summary := coalesce j.summary r.summary,
    classification := coalesce j.classification r.classification,
    hours_option := coalesce j.hours_option r.hours_option,
    hours_type := coalesce j.hours_type r.hours_type,
    updated_at := some now,
    is_active := true }

/-- Would inserting/updating this record violate a `NOT NULL` constraint of
the `jobs` table?  (title, source_url and guid are `NOT NULL`.) -/
def violatesNotNull (j : Job) : Bool :=
  j.title.isNone || j.source_url.isNone || j.guid.isNone

/-- Find the stored row with the given (non-null) guid. -/
def findByGuid (store : List Row) (g : Option String) : Option Row :=
  match g with
  | none => none
  | some gv => store.find? (fun r => r.guid = some gv)

/-- Replace the row with guid `g` by `r'`. -/
def replaceByGuid (store : List Row) (g : Option String) (r' : Row) : List Row :=
  store.map (fun r => if r.guid = g && g.isSome then r' else r)

/-- The per-record loop of `storeJobsBasic`.  The prepared statement is an
upsert, so a duplicate guid takes the DO UPDATE arm and `run()` still
succeeds — the success counter (`inserted`) is incremented for updates too.
The catch branch that counts `updated` fires only on an error whose message
contains "UNIQUE constraint", which the upsert clause prevents; the only
error this model can raise is a NOT NULL violation, which is logged without
touching either counter, exactly as in the source. -/
def storeJobsBasicAux (now : String) :
    List Job → List Row → Nat → Nat → List Row × Nat × Nat
  | [], store, ins, upd => (store, ins, upd)
  | j :: js, store, ins, upd =>
    if violatesNotNull j then
      storeJobsBasicAux now js store ins upd
    else
      match findByGuid store j.guid with
      | some old =>
        storeJobsBasicAux now js (replaceByGuid store j.guid (upsertRow now old j))
          (ins + 1) upd
      | none =>
        storeJobsBasicAux now js (store ++ [insertRow now j]) (ins + 1) upd

/-- The `storeJobsBasic` function of src/worker/scraper.js: returns the
updated store and the `{inserted, updated}` counters. -/
def storeJobsBasic (now : String) (store : List Row) (jobs : List Job) :
    List Row × Nat × Nat :=
  storeJobsBasicAux now jobs store 0 0

/-! ## scraper.js: enrichment -/

/-- The selection predicate of `enrichJobDetails`' query:
`source_url IS NOT NULL AND (description IS NULL OR (description LIKE
'%jobtrain.co.uk%' AND length(description) < 500))`.  SQLite `LIKE` is
case-insensitive on ASCII. -/
def needsEnrichment (r : Row) : Bool :=
  r.source_url.isSome &&
    (r.description.isNone ||
      (listHasRun "jobtrain.co.uk".data (toLowerList ((r.description.getD "").data)) &&
        decide ((r.description.getD "").data.length < 500)))

/-- Output of `parseJobDetail` relevant to persistence: `description` and
`apply_url` (the `additional_info` bag is `EnrichInfo`). -/
structure Detail where
  description : Option String
  apply_url : Option String
deriving Repr, DecidableEq

/-- The `additional_info` bag of `parseJobDetail` as consumed by
`enrichJobDetails`: the promoted keys the update statement reads, plus the
remaining entries (`extras`, holding unrecognized keys and the `_label_*`
entries). -/
structure EnrichInfo where
  employer : Option String
  location : Option String
  salary : Option String
  hours_option : Option String
  job_type : Option String
  closing_date : Option String
  start_date : Option String
  reference : Option String
  contact_name : Option String
  contact_email : Option String
  contact_phone : Option String
  qualifications : Option String
  experience : Option String
  benefits : Option String
  how_to_apply : Option String
  extras : List (String × String)
deriving Repr, DecidableEq

/-- Output record of `parseJobtrainDetail`. -/
structure JtDetail where
  description : Option String
  salary : Option String
  employer : Option String
  location : Option String
  job_type : Option String
  closing_date : Option String
  posted_date : Option String
  title : Option String
deriving Repr, DecidableEq

/-- The jobtrain redirect-following block of `enrichJobDetails`
(src/worker/scraper.js lines 362-398), given the secondary fetch+parse as
the function `jtFetch` (`none` models a failed fetch).  When the jobtrain
page yields a truthy description, the primary description is replaced by the
jobtrain content plus the attribution/apply footer, `apply_url` defaults to
the jobtrain URL, and salary, job_type, closing_date and location are merged
into the bag only where unset; no other field of the secondary parse is
consumed. -/
def applyJobtrainStep (d : Detail) (i : EnrichInfo)
    (jtFetch : String → Option JtDetail) : Detail × EnrichInfo :=
  if !isJobtrainRedirect d.description then (d, i)
  else
    match extractJobtrainUrl d.description with
    | none => (d, i)
    | some url =>
      match jtFetch url with
      | none => (d, i)
      | some jt =>
        if !truthy jt.description then (d, i)
        else
          let d' : Detail :=
            { description := some ((jt.description.getD "") ++
                "\n\n---\n\nFor more details and to apply, visit:\n" ++ url),
              apply_url := jsOrOpt d.apply_url (some url) }
          let i' : EnrichInfo :=
            { i with
              salary := if truthy jt.salary && !truthy i.salary then jt.salary else i.salary,
              job_type := if truthy jt.job_type && !truthy i.job_type then jt.job_type else i.job_type,
              closing_date := if truthy jt.closing_date && !truthy i.closing_date then jt.closing_date else i.closing_date,
              location := if truthy jt.location && !truthy i.location then jt.location else i.location }
          (d', i')

/-- `hours_type` derivation of `enrichJobDetails`
(`(info.hours_option || "").toLowerCase()` substring checks). -/
def hoursTypeOf (hoursOption : Option String) : Option String :=
  let hl := toLowerList (hoursOption.getD "").data
  if listHasRun "full-time".data hl || listHasRun "full time".data hl then
    some "full-time"
  else if listHasRun "part-time".data hl || listHasRun "part time".data hl then
    some "part-time"
  else none

/-- The JS `x || null` normalization used for the bound parameters. -/
def bindOpt (x : Option String) : Option String := jsOrOpt x none

/-- Entries of the `additional_info` JSON blob: promoted keys present in the
bag plus the extras whose key does not start with an underscore (the
`Object.entries(info).filter(([k]) => !k.startsWith("_"))` step; the JSON
text itself is abstracted to this entry list). -/
def enrichInfoEntries (i : EnrichInfo) : List (String × String) :=
  (([("employer", i.employer), ("location", i.location), ("salary", i.salary),
     ("hours_option", i.hours_option), ("job_type", i.job_type),
     ("closing_date", i.closing_date), ("start_date", i.start_date),
     ("reference", i.reference), ("contact_name", i.contact_name),
     ("contact_email", i.contact_email), ("contact_phone", i.contact_phone),
     ("qualifications", i.qualifications), ("experience", i.experience),
     ("benefits", i.benefits), ("how_to_apply", i.how_to_apply)].filterMap
      (fun kv => kv.2.map (fun v => (kv.1, v)))) ++
    i.extras.filter (fun kv => !(kv.1.data.take 1 = "_".data)))

/-- The persistence step of `enrichJobDetails` (the `UPDATE jobs SET …`
statement, src/worker/scraper.js lines 428-480): `description`, `apply_url`,
`additional_info`, `raw_html` and `updated_at` are overwritten
unconditionally; every other touched column is merged COALESCE-style; the
salary columns come from `parseSalaryRange(info.salary)` and `hours_type`
from `hours_option`.  `CURRENT_TIMESTAMP` is threaded as `now`. -/
def updateJobDetails (now : String) (r : Row) (d : Detail) (i : EnrichInfo)
    (html : String) : Row :=
  let parsed :=
    if truthy i.salary then parseSalaryRange i.salary else (⟨none, none, none⟩ : SalaryParse)
  { r with
    description := d.description,
    apply_url := d.apply_url,
    employer := coalesce (bindOpt i.employer) r.employer,
    location := coalesce (bindOpt i.location) r.location,
    salary_text := coalesce (bindOpt i.salary) r.salary_text,
    salary_min := coalesce (dbNum parsed.min) r.salary_min,
    salary_max := coalesce (dbNum parsed.max) r.salary_max,
    salary_type := coalesce parsed.type r.salary_type,
    hours_option := coalesce (bindOpt i.hours_option) r.hours_option,
    hours_type := coalesce (hoursTypeOf i.hours_option) r.hours_type,
    job_type := coalesce (bindOpt i.job_type) r.job_type,
    closing_date := coalesce (bindOpt i.closing_date) r.closing_date,
    start_date := coalesce (bindOpt i.start_date) r.start_date,
    reference := coalesce (bindOpt i.reference) r.reference,
    contact_name := coalesce (bindOpt i.contact_name) r.contact_name,
    contact_email := coalesce (bindOpt i.contact_email) r.contact_email,
    contact_phone := coalesce (bindOpt i.contact_phone) r.contact_phone,
    qualifications := coalesce (bindOpt i.qualifications) r.qualifications,
    experience := coalesce (bindOpt i.experience) r.experience,
    benefits := coalesce (bindOpt i.benefits) r.benefits,
    how_to_apply := coalesce (bindOpt i.how_to_apply) r.how_to_apply,
    additional_info := some (enrichInfoEntries i),
    raw_html := some html,
    updated_at := some now }

/-! ## scraper.js: expiry sweep -/

/-- Lexicographic comparison of character lists; on ASCII text this is the
bytewise (memcmp) order SQLite uses for TEXT. -/
def charListLt : List Char → List Char → Bool
  | [], [] => false
  | [], _ :: _ => true
  | _ :: _, [] => false
  | a :: as, b :: bs =>
    if a < b then true else if b < a then false else charListLt as bs

/-- SQL `<` on nullable TEXT: a NULL operand makes the comparison NULL, so
the WHERE clause is not satisfied; otherwise bytewise text comparison. -/
def sqlLtText (a b : Option String) : Bool :=
  match a, b with
  | some x, some y => charListLt x.data y.data
  | _, _ => false

/-- The per-row effect of `markExpiredJobs`
(`UPDATE jobs SET is_active = 0, updated_at = CURRENT_TIMESTAMP WHERE
closing_date < date('now') AND is_active = 1`); `today` is `date('now')` and
`now` is `CURRENT_TIMESTAMP`. -/
def sweepRow (today now : String) (r : Row) : Row :=
  if sqlLtText r.closing_date (some today) && r.is_active then
    { r with is_active := false, updated_at := some now }
  else r

/-- The `markExpiredJobs` function over the whole store. -/
def markExpiredJobs (today now : String) (store : List Row) : List Row :=
  store.map (sweepRow today now)

/-- The three row-mutating operations the worker performs on a stored row:
a listing upsert of a record with the row's guid (`storeJobsBasic`), an
enrichment update (`enrichJobDetails`), and the expiry sweep. -/
inductive RowOp where
  | upsert (now : String) (j : Job)
  | enrich (now : String) (d : Detail) (i : EnrichInfo) (html : String)
  | sweep (today now : String)
deriving Repr

/-- Apply a row operation. -/
def applyRowOp (r : Row) : RowOp → Row
  | .upsert now j => upsertRow now r j
  | .enrich now d i html => updateJobDetails now r d i html
  | .sweep today now => sweepRow today now r

/-! ## scraper.js: crawl loop and failure classification -/

/-- Outcome of one listing-page fetch as seen by `scrapeJobs`: a WAF block,
an HTTP/network failure, or a success whose page parses to `jobsFound`
records and does or does not advertise a next page. -/
inductive FetchOutcome where
  | blocked
  | httpError
  | netError
  | success (jobsFound : Nat) (hasNext : Bool)
deriving Repr, DecidableEq

/-- The fetch statistics `scrapeJobs` tracks across the crawl. -/
structure CrawlStats where
  fetchAttempts : Nat
  fetchSuccesses : Nat
  wafBlocks : Nat
  fetchErrors : Nat
  totalFound : Nat
deriving Repr, DecidableEq

/-- The listing while-loop of `scrapeJobs` (pages up to `maxPages = 50`;
a failed fetch breaks the loop; a success accumulates parsed jobs and
follows the pagination link).  The prescribed outcomes of successive
fetches are the input list. -/
def crawlLoop : List FetchOutcome → Nat → CrawlStats → CrawlStats
  | _, 0, s => s
  | [], _, s => s
  | o :: rest, n + 1, s =>
    match o with
    | .blocked =>
      { s with fetchAttempts := s.fetchAttempts + 1, wafBlocks := s.wafBlocks + 1 }
    | .httpError =>
      { s with fetchAttempts := s.fetchAttempts + 1, fetchErrors := s.fetchErrors + 1 }
    | .netError =>
      { s with fetchAttempts := s.fetchAttempts + 1, fetchErrors := s.fetchErrors + 1 }
    | .success jobs hasNext =>
      let s' := { s with fetchAttempts := s.fetchAttempts + 1,
                         fetchSuccesses := s.fetchSuccesses + 1,
                         totalFound := s.totalFound + jobs }
      if hasNext then crawlLoop rest n s' else s'

/-- The crawl over prescribed outcomes, from a zeroed statistics record. -/
def crawl (outcomes : List FetchOutcome) : CrawlStats :=
  crawlLoop outcomes 50 ⟨0, 0, 0, 0, 0⟩

/-- Reason attached to a failed run by the post-crawl classification. -/
inductive FailReason where
  | allBlocked
  | highFailureRate
  | parserDrift
deriving Repr, DecidableEq

/-- Run result as the caller sees it: success flag plus the failure reason
(the three distinct error-message families of the source). -/
structure RunResult where
  success : Bool
  reason : Option FailReason
deriving Repr, DecidableEq

/-- The failure classification of `scrapeJobs` (src/worker/scraper.js lines
109-144), evaluated in source order: blocks with zero successes; then a
failure rate above 50% with zero jobs found (the float comparison
`(wafBlocks + fetchErrors) / fetchAttempts > 0.5` is exact as the rational
test below for the small operand ranges of the loop); then successful
fetches with zero jobs parsed; otherwise success. -/
def classifyRun (s : CrawlStats) : RunResult :=
  if s.wafBlocks > 0 && s.fetchSuccesses = 0 then
    ⟨false, some .allBlocked⟩
  else if 2 * (s.wafBlocks + s.fetchErrors) > s.fetchAttempts && s.totalFound = 0 then
    ⟨false, some .highFailureRate⟩
  else if s.fetchSuccesses > 0 && s.totalFound = 0 then
    ⟨false, some .parserDrift⟩
  else
    ⟨true, none⟩

/-- Crawl followed by classification. -/
def scrapeOutcome (outcomes : List FetchOutcome) : RunResult :=
  classifyRun (crawl outcomes)

/-! ## Sample data used by concrete evaluations -/

/-- A fully-populated parsed listing record. -/
def sampleJob : Job where
  title := some "Ward Nurse"
  employer := some "Manx Care"
  location := some "Douglas"
  salary_text := some "£25,000 - £30,000"
  salary_min := some (some ⟨25000, 0⟩)
  salary_max := some (some ⟨30000, 0⟩)
  salary_type := some "annual"
  job_type := some "permanent"
  classification := some "NURSING"
  area := some "Douglas"
  hours_option := some "Full Time"
  hours_type := some "full-time"
  posted_date := some "2026-10-01"
  closing_date := some "2026-10-20"
  summary := some "A nursing post"
  source_url := some "https://services.gov.im/viewjob?id=1"
  guid := some "iom-gov-mvvq05"
  scraped_at := some "T0"

/-- The row `sampleJob` inserts at time `T0`. -/
def sampleRow : Row := insertRow "T0" sampleJob

/-- An empty `additional_info` bag. -/
def emptyInfo : EnrichInfo :=
  ⟨none, none, none, none, none, none, none, none, none, none, none, none,
   none, none, none, []⟩

/-- A stub-redirect description: short, and pointing at the secondary
board. -/
def stubDesc : String :=
  "Please apply via https://www.jobtrain.co.uk/iomgov/Job/123. See the posting for details."

/-- A parsed secondary-board (jobtrain) detail record. -/
def sampleJt : JtDetail where
  description := some "We are seeking a motivated person."
  salary := some "£30,000"
  employer := some "Acme Ltd"
  location := some "Douglas, Isle of Man"
  job_type := some "permanent"
  closing_date := some "2026-11-01"
  posted_date := some "2026-10-01"
  title := some "Ward Nurse"

/-! ## Claim C4 -/

/-- C4: counterexample.  A 403 response whose body is exactly a block-page
signature is classified as an HTTP error with a null `rawText`, not as an
anti-bot block — `fetchPage` checks the status before ever reading the
body, refuting the claim that a block-signature body is classified as an
anti-bot block regardless of HTTP status (with the raw body returned). -/
theorem C4_counterexample :
    jsIncludes "Request Rejected" "Request Rejected" = true ∧
    respOk 403 = false ∧
    (fetchPage (.resp 403 "Request Rejected")).wafBlocked = false ∧
    (fetchPage (.resp 403 "Request Rejected")).rawText = none ∧
    (fetchPage (.resp 403 "Request Rejected")).error = some "HTTP 403" := by
  decide

/-- C4 (amended): the block-signature check applies only to 2xx responses:
an ok response whose body matches a signature is classified as a WAF block
with `rawText` the body and `html` null; a non-2xx response is classified as
an HTTP error without the body being read (`html` and `rawText` both null,
`wafBlocked` false) — even when the body carries a block signature. -/
theorem C4_fetch_classification (status : Nat) (body : String)
    (hsig : (jsIncludes body "Request Rejected" || jsIncludes body "URL was rejected") = true) :
    (respOk status = true →
      fetchPage (.resp status body) = ⟨none, some body, some "WAF blocked", true⟩) ∧
    (respOk status = false →
      fetchPage (.resp status body) = ⟨none, none, some ("HTTP " ++ natToDec status), false⟩) := by
  constructor
  · intro hok
    simp [fetchPage, hok, hsig]
  · intro hbad
    simp [fetchPage, hbad]

/-- C4: witness at concrete inputs. -/
theorem C4_fetch_classification_witness :
    fetchPage (.resp 200 "Request Rejected") =
      ⟨none, some "Request Rejected", some "WAF blocked", true⟩ ∧
    fetchPage (.resp 403 "URL was rejected") =
      ⟨none, none, some ("HTTP " ++ natToDec 403), false⟩ :=
  ⟨(C4_fetch_classification 200 "Request Rejected" (by decide)).1 (by decide),
   (C4_fetch_classification 403 "URL was rejected" (by decide)).2 (by decide)⟩

/-! ## Claim C5 -/

/-- C5: counterexample.  `parseSalaryRange "£25k-£30k"` does not yield
min 25000 (the `fullMatch` suffix check looks one character past the match,
so a `k` followed by `-` is missed and min is 25); and a keyword-only string
with no numeric token keeps its detected type instead of returning a null
type. -/
theorem C5_counterexample :
    parseSalaryRange (some "£25k-£30k") ≠
      ⟨some (some ⟨25000, 0⟩), some (some ⟨30000, 0⟩), some "annual"⟩ ∧
    parseSalaryRange (some "per hour") ≠ ⟨none, none, none⟩ := by
  decide

/-- C5 (amended): the salary-parser round trips are:
`"£25,000 - £30,000"` → 25000/30000 annual and `"£12.50 per hour"` →
12.5/12.5 hourly as claimed; but `"£25k-£30k"` → min 25, max 30000 (the
`k` multiplier applies only when the `k` ends the string or is followed by
another `k`, because the suffix test reads one character past the match);
`""` (and null) → all-null; and a string with no numeric tokens returns
null min/max but keeps the detected unit keyword type
(`"per hour"` → hourly). -/
theorem C5_salary_examples :
    parseSalaryRange (some "£25,000 - £30,000") =
      ⟨some (some ⟨25000, 0⟩), some (some ⟨30000, 0⟩), some "annual"⟩ ∧
    parseSalaryRange (some "£12.50 per hour") =
      ⟨some (some ⟨125, 1⟩), some (some ⟨125, 1⟩), some "hourly"⟩ ∧
    parseSalaryRange (some "£25k-£30k") =
      ⟨some (some ⟨25, 0⟩), some (some ⟨30000, 0⟩), some "annual"⟩ ∧
    parseSalaryRange (some "£25k") =
      ⟨some (some ⟨25000, 0⟩), some (some ⟨25000, 0⟩), some "annual"⟩ ∧
    parseSalaryRange (some "") = ⟨none, none, none⟩ ∧
    parseSalaryRange none = ⟨none, none, none⟩ ∧
    parseSalaryRange (some "per hour") = ⟨none, none, some "hourly"⟩ := by
  decide

/-! ## Claim C10 -/

/-- C10: a record with a null `closing_date` is left entirely unchanged by
the expiry sweep (`NULL < date('now')` is NULL, so the WHERE clause does not
select the row): no field, including `is_active` and `updated_at`, is
modified. -/
theorem C10_sweep_null_closing (today now : String) (r : Row)
    (h : r.closing_date = none) : sweepRow today now r = r := by
  simp [sweepRow, sqlLtText, h]

/-- C10: witness at a concrete row. -/
theorem C10_sweep_null_closing_witness :
    sweepRow "2026-10-12" "TS" { sampleRow with closing_date := none } =
      { sampleRow with closing_date := none } :=
  C10_sweep_null_closing "2026-10-12" "TS" _ rfl

/-! ## Claim C8 -/

/-- C8: the expiry sweep deactivates exactly the active rows whose
closing_date is strictly before today and leaves rows with a future (or
equal) closing_date untouched; and across the worker's three row-mutating
operations, an active row is deactivated only by the sweep, and an inactive
row is re-activated only by a listing upsert (never by the sweep or the
enrichment update). -/
theorem C8_activity_lifecycle :
    (∀ (today now : String) (r : Row) (d : String), r.is_active = true →
        r.closing_date = some d → charListLt d.data today.data = true →
        (sweepRow today now r).is_active = false) ∧
    (∀ (today now : String) (r : Row) (d : String), r.closing_date = some d →
        charListLt d.data today.data = false → sweepRow today now r = r) ∧
    (∀ (r : Row) (op : RowOp), r.is_active = true →
        (applyRowOp r op).is_active = false → ∃ today now, op = .sweep today now) ∧
    (∀ (r : Row) (op : RowOp), r.is_active = false →
        (applyRowOp r op).is_active = true → ∃ now j, op = .upsert now j) := by
  refine ⟨?_, ?_, ?_, ?_⟩
  · intro today now r d h1 h2 h3
    simp [sweepRow, sqlLtText, h1, h2, h3]
  · intro today now r d h1 h2
    simp [sweepRow, sqlLtText, h1, h2]
  · intro r op h1 h2
    cases op with
    | upsert now j => simp [applyRowOp, upsertRow] at h2
    | enrich now d i html =>
      simp [applyRowOp, updateJobDetails] at h2
      exact absurd h2 (by simp [h1])
    | sweep today now => exact ⟨today, now, rfl⟩
  · intro r op h1 h2
    cases op with
    | upsert now j => exact ⟨now, j, rfl⟩
    | enrich now d i html =>
      simp [applyRowOp, updateJobDetails] at h2
      exact absurd h2 (by simp [h1])
    | sweep today now => simp [applyRowOp, sweepRow, h1] at h2

/-- C8: witness at concrete rows and dates. -/
theorem C8_activity_lifecycle_witness :
    (sweepRow "2026-10-12" "TS" { sampleRow with closing_date := some "2026-10-11" }).is_active = false ∧
    sweepRow "2026-10-12" "TS" { sampleRow with closing_date := some "2026-10-13" } =
      { sampleRow with closing_date := some "2026-10-13" } :=
  ⟨C8_activity_lifecycle.1 "2026-10-12" "TS" _ "2026-10-11" (by decide) rfl (by decide),
   C8_activity_lifecycle.2.1 "2026-10-12" "TS" _ "2026-10-13" rfl (by decide)⟩

/-! ## Claim C3 -/

/-- Invariant of the crawl loop: successes, blocks and errors partition the
attempts. -/
theorem crawlLoop_balanced (outcomes : List FetchOutcome) : ∀ (n : Nat) (s : CrawlStats),
    s.fetchSuccesses + s.wafBlocks + s.fetchErrors = s.fetchAttempts →
    (crawlLoop outcomes n s).fetchSuccesses + (crawlLoop outcomes n s).wafBlocks +
      (crawlLoop outcomes n s).fetchErrors = (crawlLoop outcomes n s).fetchAttempts := by
  induction outcomes with
  | nil =>
    intro n s h
    cases n <;> simpa [crawlLoop]
  | cons o rest ih =>
    intro n s h
    cases n with
    | zero => simpa [crawlLoop]
    | succ m =>
      cases o with
      | blocked => simp [crawlLoop]; omega
      | httpError => simp [crawlLoop]; omega
      | netError => simp [crawlLoop]; omega
      | success jobs hasNext =>
        cases hasNext with
        | false => simp [crawlLoop]; omega
        | true =>
          simp only [crawlLoop, if_true]
          exact ih m _ (by simp; omega)

/-- C3: if every fetch attempt of the crawl was an anti-bot block, the run
is classified failed with the all-blocked reason; if at least one fetch
succeeded but zero jobs were parsed, the run is failed with a reason
distinct from the all-blocked one. -/
theorem C3_failure_classification (outcomes : List FetchOutcome) :
    ((crawl outcomes).wafBlocks = (crawl outcomes).fetchAttempts ∧
        0 < (crawl outcomes).fetchAttempts →
      scrapeOutcome outcomes = ⟨false, some .allBlocked⟩) ∧
    (0 < (crawl outcomes).fetchSuccesses ∧ (crawl outcomes).totalFound = 0 →
      (scrapeOutcome outcomes).success = false ∧
        scrapeOutcome outcomes ≠ ⟨false, some .allBlocked⟩) := by
  have hb := crawlLoop_balanced outcomes 50 ⟨0, 0, 0, 0, 0⟩ rfl
  constructor
  · rintro ⟨h1, h2⟩
    have hs : (crawl outcomes).fetchSuccesses = 0 := by
      unfold crawl at *; omega
    have hw : 0 < (crawl outcomes).wafBlocks := by
      unfold crawl at *; omega
    unfold scrapeOutcome classifyRun
    simp [hs, hw]
  · rintro ⟨h1, h2⟩
    unfold scrapeOutcome classifyRun
    have hns : (crawl outcomes).fetchSuccesses ≠ 0 := by omega
    have hc1 : (decide ((crawl outcomes).wafBlocks > 0) &&
        decide ((crawl outcomes).fetchSuccesses = 0)) = false := by
      simp [hns]
    by_cases hrate :
        2 * ((crawl outcomes).wafBlocks + (crawl outcomes).fetchErrors) >
          (crawl outcomes).fetchAttempts
    · simp [hc1, hrate, h2]
    · simp [hc1, hrate, h2, h1]

/-! ## Claim C2 -/

/-- C2: evaluation at the failing input.  Applying the same one-record batch
twice yields `{inserted := 1, updated := 0}` on the first call as claimed,
but also `{inserted := 1, updated := 0}` on the second call: the prepared
statement is an `ON CONFLICT(guid) DO UPDATE` upsert, so `run()` never
raises the "UNIQUE constraint" error whose catch branch is the only place
the `updated` counter is incremented — the duplicate is counted as
`inserted` and `updated` stays 0. -/
theorem C2_second_call_counts :
    (storeJobsBasic "T1" [] [sampleJob]).2 = (1, 0) ∧
    (storeJobsBasic "T2" (storeJobsBasic "T1" [] [sampleJob]).1 [sampleJob]).2 = (1, 0) ∧
    (storeJobsBasic "T2" (storeJobsBasic "T1" [] [sampleJob]).1 [sampleJob]).1 =
      [upsertRow "T2" (insertRow "T1" sampleJob) sampleJob] := by
  decide

/-! ## Claim C1 -/

/-- C1: counterexample.  `salary_type` is not in the upsert's DO UPDATE SET
list, so an incoming non-null `salary_type` does not overwrite the stored
value, contradicting the claim that the COALESCE merge (non-null incoming
overwrites) holds for every column including `salary_type`. -/
theorem C1_counterexample :
    (upsertRow "T1" sampleRow { sampleJob with salary_type := some "hourly" }).salary_type =
      some "annual" ∧
    (some "annual" : Option String) ≠ some "hourly" := by
  decide

/-- COALESCE-merge behaviour: a null incoming value preserves the stored
one, a non-null incoming value overwrites. -/
def CoalesceSpec {α : Type} (inc stored result : Option α) : Prop :=
  (inc = none → result = stored) ∧ ∀ v, inc = some v → result = some v

/-- `coalesce` satisfies the merge behaviour. -/
theorem coalesce_spec {α : Type} (a b : Option α) : CoalesceSpec a b (coalesce a b) := by
  constructor
  · intro h; simp [h, coalesce]
  · intro v h; simp [h, coalesce]

/-- C1 (amended): on a guid conflict the upsert refreshes `title`,
`is_active` and `updated_at` unconditionally and merges COALESCE-style
exactly the columns of its SET list — employer, location, salary_text,
salary_min, salary_max, closing_date, summary, classification, hours_option,
hours_type (so location null never erases "Douglas" and location "Peel"
overwrites it); but `salary_type`, `job_type`, `area` and `posted_date`
(as well as source_url, scraped_at, guid and the detail columns) are
absent from the SET list: the stored value is kept and the incoming value
ignored even when non-null. -/
theorem C1_upsert_merge (now : String) (r : Row) (j : Job) :
    ((upsertRow now r j).title = j.title ∧
     (upsertRow now r j).is_active = true ∧
     (upsertRow now r j).updated_at = some now) ∧
    (CoalesceSpec j.employer r.employer (upsertRow now r j).employer ∧
     CoalesceSpec j.location r.location (upsertRow now r j).location ∧
     CoalesceSpec j.salary_text r.salary_text (upsertRow now r j).salary_text ∧
     CoalesceSpec (dbNum j.salary_min) r.salary_min (upsertRow now r j).salary_min ∧
     CoalesceSpec (dbNum j.salary_max) r.salary_max (upsertRow now r j).salary_max ∧
     CoalesceSpec j.closing_date r.closing_date (upsertRow now r j).closing_date ∧
     CoalesceSpec j.summary r.summary (upsertRow now r j).summary ∧
     CoalesceSpec j.classification r.classification (upsertRow now r j).classification ∧
     CoalesceSpec j.hours_option r.hours_option (upsertRow now r j).hours_option ∧
     CoalesceSpec j.hours_type r.hours_type (upsertRow now r j).hours_type) ∧
    ((upsertRow now r j).salary_type = r.salary_type ∧
     (upsertRow now r j).job_type = r.job_type ∧
     (upsertRow now r j).area = r.area ∧
     (upsertRow now r j).posted_date = r.posted_date ∧
     (upsertRow now r j).source_url = r.source_url ∧
     (upsertRow now r j).scraped_at = r.scraped_at ∧
     (upsertRow now r j).guid = r.guid ∧
     (upsertRow now r j).description = r.description ∧
     (upsertRow now r j).apply_url = r.apply_url) :=
  ⟨⟨rfl, rfl, rfl⟩,
   ⟨coalesce_spec _ _, coalesce_spec _ _, coalesce_spec _ _, coalesce_spec _ _,
    coalesce_spec _ _, coalesce_spec _ _, coalesce_spec _ _, coalesce_spec _ _,
    coalesce_spec _ _, coalesce_spec _ _⟩,
   ⟨rfl, rfl, rfl, rfl, rfl, rfl, rfl, rfl, rfl⟩⟩

/-- C1: witness — the non-regressing location merge at concrete rows. -/
theorem C1_upsert_merge_witness :
    (upsertRow "T1" { sampleRow with location := some "Douglas" }
        { sampleJob with location := none }).location = some "Douglas" ∧
    (upsertRow "T1" { sampleRow with location := some "Douglas" }
        { sampleJob with location := some "Peel" }).location = some "Peel" :=
  ⟨((C1_upsert_merge "T1" { sampleRow with location := some "Douglas" }
      { sampleJob with location := none }).2.1.2.1).1 rfl,
   ((C1_upsert_merge "T1" { sampleRow with location := some "Douglas" }
      { sampleJob with location := some "Peel" }).2.1.2.1).2 "Peel" rfl⟩

/-! ## Claim C7 -/

/-- A stored row whose description is a short jobtrain stub (selected by the
enrichment query). -/
def enrichStubRow : Row := { sampleRow with description := some stubDesc }

/-- C7: counterexample.  A row with a non-empty stub description qualifies
for enrichment, and when the detail parse yields no description the update
statement (which sets `description = ?` with no COALESCE) overwrites the
stored non-empty description with NULL — refuting the claim that a stored
non-empty description is only ever replaced by non-empty content. -/
theorem C7_counterexample :
    needsEnrichment enrichStubRow = true ∧
    enrichStubRow.description = some stubDesc ∧
    stubDesc ≠ "" ∧
    (updateJobDetails "T2" enrichStubRow ⟨none, none⟩ emptyInfo "<p></p>").description =
      none := by
  decide

/-- C7 (amended): the enrichment update sets `description` (and `apply_url`)
to exactly the newly parsed/merged values, null and empty included — a
stored non-empty description is erased when the parse yields none; the
non-regression guarantee holds only for the COALESCE-merged columns such as
employer. -/
theorem C7_description_replaced (now : String) (r : Row) (d : Detail)
    (i : EnrichInfo) (html : String) :
    (updateJobDetails now r d i html).description = d.description ∧
    (updateJobDetails now r d i html).apply_url = d.apply_url ∧
    CoalesceSpec (bindOpt i.employer) r.employer (updateJobDetails now r d i html).employer :=
  ⟨rfl, rfl, coalesce_spec _ _⟩

/-- C7: witness at the stub row. -/
theorem C7_description_replaced_witness :
    (updateJobDetails "T2" enrichStubRow ⟨none, none⟩ emptyInfo "<p></p>").description = none :=
  (C7_description_replaced "T2" enrichStubRow ⟨none, none⟩ emptyInfo "<p></p>").1

/-! ## Claim C9 -/

/-- Lower-priority merge: the secondary value is taken only when the
primary bag lacks a truthy value. -/
def MergeIfAbsent (primary secondary result : Option String) : Prop :=
  (truthy primary = true → result = primary) ∧
  (truthy primary = false → truthy secondary = true → result = secondary) ∧
  (truthy primary = false → truthy secondary = false → result = primary)

/-- The `if truthy secondary && !truthy primary` merge satisfies
`MergeIfAbsent`. -/
theorem mergeIfAbsent_holds (p s : Option String) :
    MergeIfAbsent p s (if truthy s && !truthy p then s else p) := by
  refine ⟨?_, ?_, ?_⟩
  · intro h; simp [h]
  · intro h1 h2; simp [h1, h2]
  · intro h1 h2; simp [h1, h2]

/-- C9: counterexample.  With a stub-redirect primary description and a
secondary parse carrying an employer the primary bag lacks, the merge step
leaves the bag's employer unset: only salary, job_type, closing_date and
location are merged from the secondary parse; employer (and posted_date)
are ignored, refuting the claim that every secondary field is merged where
the primary lacks it. -/
theorem C9_counterexample :
    isJobtrainRedirect (some stubDesc) = true ∧
    sampleJt.employer = some "Acme Ltd" ∧
    emptyInfo.employer = none ∧
    truthy sampleJt.description = true ∧
    (applyJobtrainStep ⟨some stubDesc, none⟩ emptyInfo (fun _ => some sampleJt)).2.employer =
      none := by
  decide

/-- C9 (amended): when the primary description is a stub redirect whose
jobtrain URL fetches and parses to a truthy description, the merged
description is exactly the secondary content plus the attribution/apply
footer (not the original stub) and `apply_url` defaults to the jobtrain
URL; salary, job_type, closing_date and location are merged only where the
primary bag lacks them; the secondary employer is never merged and the
persisted row's posted_date is never touched. -/
theorem C9_jobtrain_merge (d : Detail) (i : EnrichInfo)
    (jtFetch : String → Option JtDetail) (jt : JtDetail) (url : String)
    (h1 : isJobtrainRedirect d.description = true)
    (h2 : extractJobtrainUrl d.description = some url)
    (h3 : jtFetch url = some jt)
    (h4 : truthy jt.description = true) :
    (applyJobtrainStep d i jtFetch).1.description =
      some ((jt.description.getD "") ++
        "\n\n---\n\nFor more details and to apply, visit:\n" ++ url) ∧
    (applyJobtrainStep d i jtFetch).1.apply_url = jsOrOpt d.apply_url (some url) ∧
    MergeIfAbsent i.salary jt.salary (applyJobtrainStep d i jtFetch).2.salary ∧
    MergeIfAbsent i.job_type jt.job_type (applyJobtrainStep d i jtFetch).2.job_type ∧
    MergeIfAbsent i.closing_date jt.closing_date (applyJobtrainStep d i jtFetch).2.closing_date ∧
    MergeIfAbsent i.location jt.location (applyJobtrainStep d i jtFetch).2.location ∧
    (applyJobtrainStep d i jtFetch).2.employer = i.employer ∧
    (∀ (now : String) (r : Row) (html : String),
      (updateJobDetails now r (applyJobtrainStep d i jtFetch).1
        (applyJobtrainStep d i jtFetch).2 html).posted_date = r.posted_date) := by
  have hs : applyJobtrainStep d i jtFetch =
      ({ description := some ((jt.description.getD "") ++
           "\n\n---\n\nFor more details and to apply, visit:\n" ++ url),
         apply_url := jsOrOpt d.apply_url (some url) },
       { i with
         salary := if truthy jt.salary && !truthy i.salary then jt.salary else i.salary,
         job_type := if truthy jt.job_type && !truthy i.job_type then jt.job_type else i.job_type,
         closing_date := if truthy jt.closing_date && !truthy i.closing_date then jt.closing_date else i.closing_date,
         location := if truthy jt.location && !truthy i.location then jt.location else i.location }) := by
    simp [applyJobtrainStep, h1, h2, h3, h4]
  rw [hs]
  exact ⟨rfl, rfl, mergeIfAbsent_holds _ _, mergeIfAbsent_holds _ _,
    mergeIfAbsent_holds _ _, mergeIfAbsent_holds _ _, rfl, fun now r html => rfl⟩

/-- C9: witness at the concrete stub description and jobtrain record. -/
theorem C9_jobtrain_merge_witness :
    (applyJobtrainStep ⟨some stubDesc, none⟩ emptyInfo (fun _ => some sampleJt)).1.description =
      some ("We are seeking a motivated person." ++
        "\n\n---\n\nFor more details and to apply, visit:\n" ++
        "https://www.jobtrain.co.uk/iomgov/Job/123") :=
  (C9_jobtrain_merge ⟨some stubDesc, none⟩ emptyInfo (fun _ => some sampleJt) sampleJt
    "https://www.jobtrain.co.uk/iomgov/Job/123" (by decide) (by decide) rfl (by decide)).1

/-! ## Claim C6 -/

/-- The four fields the grouped-format claim says the listing parser
populates besides title/employer/source_url/guid: classification and the
hours fields (and `area`). -/
def quadFields (j : Job) :
    Option String × Option String × Option String × Option String :=
  (j.classification, j.area, j.hours_option, j.hours_type)

/-- Title extraction never touches classification/area/hours. -/
theorem applyTitle_quad (html : List Char) (j : Job) :
    quadFields (applyTitle html j) = quadFields j := by
  unfold applyTitle
  split
  · rfl
  · split <;> rfl

/-- URL fallback never touches classification/area/hours. -/
theorem applyUrlFallback_quad (html : List Char) (j : Job) :
    quadFields (applyUrlFallback html j) = quadFields j := by
  unfold applyUrlFallback
  split
  · rfl
  · split <;> rfl

/-- Employer extraction never touches classification/area/hours. -/
theorem applyEmployer_quad (html : List Char) (j : Job) :
    quadFields (applyEmployer html j) = quadFields j := by
  unfold applyEmployer
  split <;> rfl

/-- Location extraction never touches classification/area/hours. -/
theorem applyLocation_quad (html : List Char) (j : Job) :
    quadFields (applyLocation html j) = quadFields j := by
  unfold applyLocation
  split <;> rfl

/-- Salary extraction never touches classification/area/hours. -/
theorem applySalary_quad (html : List Char) (j : Job) :
    quadFields (applySalary html j) = quadFields j := by
  unfold applySalary
  split <;> rfl

/-- Job-type extraction never touches classification/area/hours. -/
theorem applyJobType_quad (html : List Char) (j : Job) :
    quadFields (applyJobType html j) = quadFields j := by
  unfold applyJobType
  split <;> rfl

/-- Closing-date extraction never touches classification/area/hours. -/
theorem applyClosing_quad (dImpl : String → Option String) (html : List Char) (j : Job) :
    quadFields (applyClosing dImpl html j) = quadFields j := by
  unfold applyClosing
  split <;> rfl

/-- Posted-date extraction never touches classification/area/hours. -/
theorem applyPosted_quad (dImpl : String → Option String) (html : List Char) (j : Job) :
    quadFields (applyPosted dImpl html j) = quadFields j := by
  unfold applyPosted
  split <;> rfl

/-- Summary extraction never touches classification/area/hours. -/
theorem applySummary_quad (html : List Char) (j : Job) :
    quadFields (applySummary html j) = quadFields j := by
  unfold applySummary
  split <;> rfl

/-- A snippet-parsed job always has null classification, area and hours
fields: no extraction step of `parseJobFromHtml` writes them. -/
theorem parseJobFromHtml_quad (dImpl : String → Option String) (now fresh : String)
    (html : List Char) :
    quadFields (parseJobFromHtml dImpl now fresh html) = (none, none, none, none) := by
  have hguid : ∀ (x : Job) (g : Option String),
      quadFields { x with guid := g } = quadFields x := fun _ _ => rfl
  simp only [parseJobFromHtml, hguid, applySummary_quad, applyPosted_quad,
    applyClosing_quad, applyJobType_quad, applySalary_quad, applyLocation_quad,
    applyEmployer_quad, applyUrlFallback_quad, applyTitle_quad]
  rfl

/-- A link-scan job always has null classification, area and hours
fields. -/
theorem parseJobLinksAux_quad (now fresh : String) :
    ∀ (ms : List (Nat × Nat × Caps)) (seen : List (Option String)) (j : Job),
      j ∈ parseJobLinksAux now fresh ms seen →
      quadFields j = (none, none, none, none) := by
  intro ms
  induction ms with
  | nil =>
    intro seen j h
    simp [parseJobLinksAux] at h
  | cons m rest ih =>
    intro seen j h
    simp only [parseJobLinksAux] at h
    split at h
    · exact ih _ _ h
    split at h
    · exact ih _ _ h
    split at h
    · exact ih _ _ h
    split at h
    · exact ih _ _ h
    split at h
    · exact ih _ _ h
    · rcases List.mem_cons.mp h with h2 | h2
      · subst h2; rfl
      · exact ih _ _ h2

/-- The concrete grouped-format search-results page: a classification
section header (`<h2>NURSING</h2>`) followed by a table of rows carrying
id, link+title, employer and hours — with no job-indicative class
attributes on its markup. -/
def groupedPage : String :=
  "<h2>NURSING</h2><table><tr><td>1</td><td><a href=\"/viewjob?id=1\">Ward Nurse</a></td><td>Manx Care</td><td>Full Time</td></tr></table>"

/-- The single record the listing parser actually returns on
`groupedPage`: link-scan output with only title, source_url and guid
populated. -/
def groupedPageJob : Job :=
  { emptyJob "T" with
      title := some "Ward Nurse",
      source_url := some "https://services.gov.im/viewjob?id=1",
      guid := some "iom-gov-mvvq05" }

set_option maxRecDepth 10000000 in
set_option maxHeartbeats 4000000 in
/-- C6: counterexample.  On the grouped-format page the listing parser
returns its jobs with a null classification — not the upper-cased section
header text ("NURSING") the claim requires. -/
theorem C6_counterexample :
    (parseJobListings (fun _ => none) "T" "F" groupedPage).map Job.classification =
      [none] := by
  decide

set_option maxRecDepth 10000000 in
set_option maxHeartbeats 4000000 in
/-- C6 (amended): the listing parser implements no grouped-format strategy:
classification, area and the hours fields are null on every record it
returns, for every input page (the grouped format's section headers are
never read); on a grouped-format page whose rows carry no job-indicative
class attributes, the container patterns all miss and the link-scan
fallback returns, in document order, one record per job-detail link with
only title, source_url and guid populated and every other field null. -/
theorem C6_listing_extraction :
    (∀ (dImpl : String → Option String) (now fresh html : String) (j : Job),
        j ∈ parseJobListings dImpl now fresh html →
        j.classification = none ∧ j.area = none ∧
          j.hours_option = none ∧ j.hours_type = none) ∧
    parseJobListings (fun _ => none) "T" "F" groupedPage = [groupedPageJob] := by
  constructor
  · intro dImpl now fresh html j hmem
    have hq : quadFields j = (none, none, none, none) := by
      rcases hfh : firstHits jobPatterns html.data with _ | ⟨m, ms⟩
      · rw [parseJobListings, hfh] at hmem
        exact parseJobLinksAux_quad now fresh _ _ j hmem
      · rw [parseJobListings, hfh] at hmem
        rcases List.mem_filterMap.mp hmem with ⟨a, _, hfa⟩
        simp only at hfa
        split at hfa <;> split at hfa
        · have hj := Option.some.inj hfa
          subst hj
          exact parseJobFromHtml_quad dImpl now fresh _
        · exact Option.noConfusion hfa
        · have hj := Option.some.inj hfa
          subst hj
          exact parseJobFromHtml_quad dImpl now fresh _
        · exact Option.noConfusion hfa
    refine ⟨?_, ?_, ?_, ?_⟩
    · exact congrArg (fun q => q.1) hq
    · exact congrArg (fun q => q.2.1) hq
    · exact congrArg (fun q => q.2.2.1) hq
    · exact congrArg (fun q => q.2.2.2) hq
  · decide

set_option maxRecDepth 10000000 in
set_option maxHeartbeats 4000000 in
/-- C6: witness — the record returned on the grouped page is a member of
the parse and its classification is null. -/
theorem C6_listing_extraction_witness :
    groupedPageJob ∈ parseJobListings (fun _ => none) "T" "F" groupedPage ∧
    groupedPageJob.classification = none := by
  have hmem : groupedPageJob ∈ parseJobListings (fun _ => none) "T" "F" groupedPage := by
    rw [C6_listing_extraction.2]
    exact List.mem_singleton.mpr rfl
  exact ⟨hmem,
    (C6_listing_extraction.1 (fun _ => none) "T" "F" groupedPage groupedPageJob hmem).1⟩

/-- C3: witness — a crawl whose only fetch is blocked, and a crawl with one
successful fetch parsing zero jobs. -/
theorem C3_failure_classification_witness :
    scrapeOutcome [.blocked] = ⟨false, some .allBlocked⟩ ∧
    (scrapeOutcome [.success 0 false]).success = false ∧
    scrapeOutcome [.success 0 false] ≠ ⟨false, some .allBlocked⟩ :=
  ⟨(C3_failure_classification [.blocked]).1 (by decide),
   ((C3_failure_classification [.success 0 false]).2 (by decide)).1,
   ((C3_failure_classification [.success 0 false]).2 (by decide)).2⟩
